import Mathlib

/-!
# ShardingSphere operator: resource builder and ProxyConfig convergence loop

A shallow embedding of `pkg/reconcile/resource.go` and of
`pkg/controllers/proxyconfig_controller.go`.

Conventions of the embedding:

* a Go pointer field that may be `nil` is an `Option`;
* a Go `map[string]T` is an association list `List (String × T)`;
* a Go function that mutates its argument through a pointer returns the
  mutated value (next to its own result when it has one);
* an index-out-of-range or nil-dereference panic is the result `none`;
* `int32` values are `Int`; no arithmetic is performed on them;
* library functions whose code is outside the repository (the YAML
  serializer, the HTML template escaper) are parameters.
-/

namespace ShardingSphere

/-! ## Kubernetes object model (the fields the builder touches) -/

/-- An owner back-reference, as built by `metav1.NewControllerRef`. -/
structure OwnerReference where
  APIVersion : String
  Kind : String
  Name : String
  UID : String
  Controller : Option Bool
  BlockOwnerDeletion : Option Bool
  deriving DecidableEq, Repr

/-- The part of `metav1.ObjectMeta` the builder fills in. -/
structure ObjectMeta where
  Name : String
  Namespace : String
  Labels : List (String × String)
  OwnerReferences : List OwnerReference
  deriving DecidableEq, Repr

/-- Identity and type information every custom record carries
(`metav1.TypeMeta` and the read part of `metav1.ObjectMeta`). -/
structure RecordMeta where
  APIVersion : String
  Kind : String
  Name : String
  Namespace : String
  UID : String
  deriving DecidableEq, Repr

/-- `metav1.NewControllerRef(owner.GetObjectMeta(), owner.GroupVersionKind())`:
a controller reference naming the owner, with both flags set. -/
def NewControllerRef (m : RecordMeta) : OwnerReference :=
  { APIVersion := m.APIVersion
    Kind := m.Kind
    Name := m.Name
    UID := m.UID
    Controller := some true
    BlockOwnerDeletion := some true }

/-! ## ProxyConfig records -/

/-- One authority-user entry of a ProxyConfig spec. -/
structure User where
  UserName : String
  HostName : String
  PassWord : String
  UserConfig : String
  deriving DecidableEq, Repr

/-- `Spec.Authority` of a ProxyConfig. -/
structure Auth where
  Users : List User
  deriving DecidableEq, Repr

/-- `Spec.ClusterConfig.Repository` of a ProxyConfig; `Type_` is the Go field
`Type`, the declared metadata-repository kind. -/
structure Repository where
  Type_ : String
  deriving DecidableEq, Repr

/-- `Spec.ClusterConfig` of a ProxyConfig. -/
structure ClusterConfig where
  Repository : Repository
  deriving DecidableEq, Repr

/-- The spec of a ProxyConfig. `Extra` stands for the remaining free-form
configuration, which the code never reads and only hands to the serializer. -/
structure ProxyConfigSpec where
  Authority : Auth
  ClusterConfig : ClusterConfig
  Extra : String
  deriving DecidableEq, Repr

/-- The observed status persisted on a ProxyConfig. -/
structure ProxyConfigStatus where
  MetadataRepository : String
  deriving DecidableEq, Repr

/-- A ProxyConfig record. -/
structure ProxyConfig where
  Meta : RecordMeta
  Spec : ProxyConfigSpec
  Status : ProxyConfigStatus
  deriving DecidableEq, Repr

/-- A `v1.ConfigMap`. -/
structure ConfigMap where
  ObjectMeta : ObjectMeta
  Data : List (String × String)
  deriving DecidableEq, Repr

/-! ## `toYaml` and `ConstructCascadingConfigmap` -/

/-- The body of the loop of `toYaml` for one entry: the composite credential
overwrites `UserConfig`. -/
def composeUser (u : User) : User :=
  { u with UserConfig := u.UserName ++ "@" ++ u.HostName ++ ":" ++ u.PassWord }

/-- The loop of `toYaml`: indices `0 .. len(Users)-1` in order, each entry
rewritten in place. -/
def composeUsers : List User → List User
  | [] => []
  | u :: us => composeUser u :: composeUsers us

/-- `toYaml`: rewrites every user entry of the record in place, then
serializes the spec. Returns the mutated record and the text. `marshal` is
`yaml.Marshal` followed by the conversion to a string (its error is
discarded by the code). -/
def toYaml (marshal : ProxyConfigSpec → String) (proxyConfig : ProxyConfig) :
    ProxyConfig × String :=
  let pc : ProxyConfig :=
    { proxyConfig with
      Spec := { proxyConfig.Spec with
        Authority := { proxyConfig.Spec.Authority with
          Users := composeUsers proxyConfig.Spec.Authority.Users } } }
  (pc, marshal pc.Spec)

/-- `ConstructCascadingConfigmap`: the derived configuration artifact, next to
the record as mutated by `toYaml`. -/
def ConstructCascadingConfigmap (marshal : ProxyConfigSpec → String)
    (proxyConfig : ProxyConfig) : ProxyConfig × ConfigMap :=
  let r := toYaml marshal proxyConfig
  (r.1,
   { ObjectMeta :=
       { Name := r.1.Meta.Name
         Namespace := r.1.Meta.Namespace
         Labels := []
         OwnerReferences := [NewControllerRef r.1.Meta] }
     Data := [("server.yaml", r.2)] })

/-! ## Workload and service object model -/

/-- A `resource.Quantity`, represented by the text it was parsed from. -/
structure Quantity where
  Literal : String
  deriving DecidableEq, Repr

/-- `resource.ParseQuantity` on a well-formed literal (the code discards its
error). -/
def ParseQuantity (s : String) : Quantity :=
  { Literal := s }

/-- A `v1.ResourceRequirements`; each `v1.ResourceList` is a map from resource
name to quantity. -/
structure ResourceRequirements where
  Limits : List (String × Quantity)
  Requests : List (String × Quantity)
  deriving DecidableEq, Repr

/-- The tag of an `intstr.IntOrString`. -/
inductive IntstrType where
  | Int
  | String
  deriving DecidableEq, Repr

/-- An `intstr.IntOrString`. -/
structure IntOrString where
  Type_ : IntstrType
  IntVal : Int
  StrVal : String
  deriving DecidableEq, Repr

/-- `intstr.FromInt`. -/
def FromInt (val : Int) : IntOrString :=
  { Type_ := IntstrType.Int, IntVal := val, StrVal := "" }

/-- A `v1.TCPSocketAction`. -/
structure TCPSocketAction where
  Port : IntOrString
  Host : String
  deriving DecidableEq, Repr

/-- A `v1.HTTPGetAction` (the fields that identify the check). -/
structure HTTPGetAction where
  Path : String
  Port : IntOrString
  Host : String
  Scheme : String
  deriving DecidableEq, Repr

/-- A `v1.Probe`: the handler (at most one of the three actions is set by a
well-formed probe) and the timing fields. -/
structure Probe where
  Exec : Option (List String)
  HTTPGet : Option HTTPGetAction
  TCPSocket : Option TCPSocketAction
  InitialDelaySeconds : Int
  TimeoutSeconds : Int
  PeriodSeconds : Int
  SuccessThreshold : Int
  FailureThreshold : Int
  deriving DecidableEq, Repr

/-- A `v1.ContainerPort`. -/
structure ContainerPort where
  ContainerPort : Int
  deriving DecidableEq, Repr

/-- A `v1.EnvVar`. -/
structure EnvVar where
  Name : String
  Value : String
  deriving DecidableEq, Repr

/-- A `v1.VolumeMount`. -/
structure VolumeMount where
  Name : String
  MountPath : String
  deriving DecidableEq, Repr

/-- A `v1.Container`. -/
structure Container where
  Name : String
  Image : String
  ImagePullPolicy : String
  Command : List String
  Ports : List ContainerPort
  Env : List EnvVar
  VolumeMounts : List VolumeMount
  Resources : ResourceRequirements
  LivenessProbe : Option Probe
  ReadinessProbe : Option Probe
  StartupProbe : Option Probe
  deriving DecidableEq, Repr

/-- A `v1.ConfigMapVolumeSource`: the name of the referenced artifact. -/
structure ConfigMapVolumeSource where
  Name : String
  deriving DecidableEq, Repr

/-- A `v1.EmptyDirVolumeSource` with every field at its zero value. -/
structure EmptyDirVolumeSource where
  Medium : String
  deriving DecidableEq, Repr

/-- A `v1.Volume` with the two volume sources the builder uses. -/
structure Volume where
  Name : String
  ConfigMap : Option ConfigMapVolumeSource
  EmptyDir : Option EmptyDirVolumeSource
  deriving DecidableEq, Repr

/-- A `v1.PodSpec`. -/
structure PodSpec where
  InitContainers : List Container
  Containers : List Container
  Volumes : List Volume
  deriving DecidableEq, Repr

/-- A `v1.PodTemplateSpec`. -/
structure PodTemplateSpec where
  ObjectMeta : ObjectMeta
  Spec : PodSpec
  deriving DecidableEq, Repr

/-- A `metav1.LabelSelector`. -/
structure LabelSelector where
  MatchLabels : List (String × String)
  deriving DecidableEq, Repr

/-- An `appsv1.DeploymentStrategy`. -/
structure DeploymentStrategy where
  Type_ : String
  deriving DecidableEq, Repr

/-- An `appsv1.DeploymentSpec`. -/
structure DeploymentSpec where
  Strategy : DeploymentStrategy
  Replicas : Option Int
  Selector : Option LabelSelector
  Template : PodTemplateSpec
  deriving DecidableEq, Repr

/-- An `appsv1.Deployment`. -/
structure Deployment where
  ObjectMeta : ObjectMeta
  Spec : DeploymentSpec
  deriving DecidableEq, Repr

/-- A `v1.ServicePort`; `NodePort = 0` is the unset value. -/
structure ServicePort where
  Name : String
  TargetPort : IntOrString
  Port : Int
  NodePort : Int
  deriving DecidableEq, Repr

/-- A `v1.ServiceSpec`. -/
structure ServiceSpec where
  Selector : List (String × String)
  Type_ : String
  Ports : List ServicePort
  deriving DecidableEq, Repr

/-- A `v1.Service`. -/
structure Service where
  ObjectMeta : ObjectMeta
  Spec : ServiceSpec
  deriving DecidableEq, Repr

/-- `appsv1.RecreateDeploymentStrategyType`. -/
def RecreateDeploymentStrategyType : String := "Recreate"

/-- `v1.PullIfNotPresent`. -/
def PullIfNotPresent : String := "IfNotPresent"

/-- `v1.ServiceTypeNodePort`. -/
def ServiceTypeNodePort : String := "NodePort"

/-! ## Proxy records -/

/-- The driver bootstrap descriptor. -/
structure MySQLDriver where
  Version : String
  deriving DecidableEq, Repr

/-- `Spec.ServiceType` of a Proxy: exposure type and the fixed node port. -/
structure ServiceType where
  Type_ : String
  NodePort : Int
  deriving DecidableEq, Repr

/-- The spec of a Proxy. -/
structure ProxySpec where
  Version : String
  ServiceType : ServiceType
  Replicas : Int
  ProxyConfigName : String
  Port : Int
  MySQLDriver : Option MySQLDriver
  Resources : Option ResourceRequirements
  LivenessProbe : Option Probe
  ReadinessProbe : Option Probe
  StartupProbe : Option Probe
  deriving DecidableEq, Repr

/-- A Proxy record. -/
structure Proxy where
  Meta : RecordMeta
  Spec : ProxySpec
  deriving DecidableEq, Repr

/-! ## The resource builder -/

/-- `strconv.FormatInt(i, 10)`: decimal digits, with a leading minus sign for
a negative value. -/
def FormatInt : Int → String
  | Int.ofNat n => Nat.repr n
  | Int.negSucc n => "-" ++ Nat.repr (n + 1)

/-- The pod spec of a deployment, `dp.Spec.Template.Spec`. -/
def Deployment.pod (dp : Deployment) : PodSpec :=
  dp.Spec.Template.Spec

/-- Assignment to `dp.Spec.Template.Spec`. -/
def Deployment.setPod (dp : Deployment) (ps : PodSpec) : Deployment :=
  { dp with Spec := { dp.Spec with Template := { dp.Spec.Template with Spec := ps } } }

/-- An assignment to fields of `dp.Spec.Template.Spec.Containers[0]`; the
index expression panics when the container list is empty. -/
def Deployment.modifyMain (dp : Deployment) (f : Container → Container) :
    Option Deployment :=
  match dp.pod.Containers with
  | [] => none
  | c :: cs => some (dp.setPod { dp.pod with Containers := f c :: cs })

/-- The shell script of the init step: the template text shared by
`addInitContainer` and `updateInitContainer`, with every `.Version` action
replaced by the escaped driver version. `esc` is the escaper that
`html/template` applies to an action in text context. -/
def renderScript (esc : String → String) (mysql : MySQLDriver) : String :=
  let v := esc mysql.Version
  "wget https://repo1.maven.org/maven2/mysql/mysql-connector-java/" ++ v ++
    "/mysql-connector-java-" ++ v ++ ".jar;\n" ++
  "wget https://repo1.maven.org/maven2/mysql/mysql-connector-java/" ++ v ++
    "/mysql-connector-java-" ++ v ++ ".jar.md5;\n" ++
  "if [ $(md5sum /mysql-connector-java-" ++ v ++ ".jar | cut -d ' ' -f1) = $(cat /mysql-connector-java-" ++
    v ++ ".jar.md5) ];\n" ++
  "then echo success;\n" ++
  "else echo failed;exit 1;fi;mv /mysql-connector-java-" ++ v ++
    ".jar /opt/shardingsphere-proxy/ext-lib"

/-- The init container literal written by both `addInitContainer` and
`updateInitContainer`. -/
def initContainer (esc : String → String) (mysql : MySQLDriver) : Container :=
  { Name := "download-mysql-connect"
    Image := "busybox:1.35.0"
    ImagePullPolicy := ""
    Command := ["/bin/sh", "-c", renderScript esc mysql]
    Ports := []
    Env := []
    VolumeMounts :=
      [{ Name := "mysql-connect-jar", MountPath := "/opt/shardingsphere-proxy/ext-lib" }]
    Resources := { Limits := [], Requests := [] }
    LivenessProbe := none
    ReadinessProbe := none
    StartupProbe := none }

/-- `addInitContainer`: sets the init container list, then appends the driver
mount to the main container and the driver volume to the pod. -/
def addInitContainer (esc : String → String) (dp : Deployment) (mysql : MySQLDriver) :
    Option Deployment :=
  let dp1 := dp.setPod { dp.pod with InitContainers := [initContainer esc mysql] }
  match dp1.modifyMain (fun c =>
      { c with VolumeMounts := c.VolumeMounts ++
          [{ Name := "mysql-connect-jar", MountPath := "/opt/shardingsphere-proxy/ext-lib" }] }) with
  | none => none
  | some dp2 =>
    some (dp2.setPod { dp2.pod with Volumes := dp2.pod.Volumes ++
      [{ Name := "mysql-connect-jar"
         ConfigMap := none
         EmptyDir := some { Medium := "" } }] })

/-- `updateInitContainer`: replaces the init container list when it is not
empty, and otherwise calls `addInitContainer`. -/
def updateInitContainer (esc : String → String) (dp : Deployment) (mysql : MySQLDriver) :
    Option Deployment :=
  if dp.pod.InitContainers.length ≠ 0 then
    some (dp.setPod { dp.pod with InitContainers := [initContainer esc mysql] })
  else
    addInitContainer esc dp mysql

/-- The probe literal of `processOptionalParameter`: a TCP check on the
spec's port with the given period and failure threshold, every other field
at its zero value. -/
def tcpProbe (port : Int) (period : Int) (failureThreshold : Int) : Probe :=
  { Exec := none
    HTTPGet := none
    TCPSocket := some { Port := FromInt port, Host := "" }
    InitialDelaySeconds := 0
    TimeoutSeconds := 0
    PeriodSeconds := period
    SuccessThreshold := 0
    FailureThreshold := failureThreshold }

/-- `processOptionalParameter`: driver injection when a descriptor is present,
then the four default-or-override assignments to the main container. -/
def processOptionalParameter (esc : String → String) (proxy : Proxy) (dp : Deployment) :
    Option Deployment := do
  let dp1 ← match proxy.Spec.MySQLDriver with
    | some mysql => addInitContainer esc dp mysql
    | none => some dp
  let dp2 ← match proxy.Spec.Resources with
    | some r => dp1.modifyMain (fun c => { c with Resources := r })
    | none => dp1.modifyMain (fun c => { c with Resources :=
        { Limits := []
          Requests := [("cpu", ParseQuantity "0.2"), ("memory", ParseQuantity "1.6Gi")] } })
  let dp3 ← match proxy.Spec.LivenessProbe with
    | some pr => dp2.modifyMain (fun c => { c with LivenessProbe := some pr })
    | none => dp2.modifyMain (fun c =>
        { c with LivenessProbe := some (tcpProbe proxy.Spec.Port 10 0) })
  let dp4 ← match proxy.Spec.ReadinessProbe with
    | some pr => dp3.modifyMain (fun c => { c with ReadinessProbe := some pr })
    | none => dp3.modifyMain (fun c =>
        { c with ReadinessProbe := some (tcpProbe proxy.Spec.Port 10 0) })
  match proxy.Spec.StartupProbe with
    | some pr => dp4.modifyMain (fun c => { c with StartupProbe := some pr })
    | none => dp4.modifyMain (fun c =>
        { c with StartupProbe := some (tcpProbe proxy.Spec.Port 5 12) })

/-- The deployment literal of `ConstructCascadingDeployment`, before the
optional parameters are processed. -/
def baseDeployment (proxy : Proxy) : Deployment :=
  { ObjectMeta :=
      { Name := proxy.Meta.Name
        Namespace := proxy.Meta.Namespace
        Labels := []
        OwnerReferences := [NewControllerRef proxy.Meta] }
    Spec :=
      { Strategy := { Type_ := RecreateDeploymentStrategyType }
        Replicas := some proxy.Spec.Replicas
        Selector := some { MatchLabels := [("apps", proxy.Meta.Name)] }
        Template :=
          { ObjectMeta :=
              { Name := ""
                Namespace := ""
                Labels := [("apps", proxy.Meta.Name)]
                OwnerReferences := [] }
            Spec :=
              { InitContainers := []
                Containers :=
                  [{ Name := "proxy"
                     Image := "apache/shardingsphere-proxy:" ++ proxy.Spec.Version
                     ImagePullPolicy := PullIfNotPresent
                     Command := []
                     Ports := [{ ContainerPort := proxy.Spec.Port }]
                     Env := [{ Name := "PORT", Value := FormatInt proxy.Spec.Port }]
                     VolumeMounts :=
                       [{ Name := "config", MountPath := "/opt/shardingsphere-proxy/conf" }]
                     Resources := { Limits := [], Requests := [] }
                     LivenessProbe := none
                     ReadinessProbe := none
                     StartupProbe := none }]
                Volumes :=
                  [{ Name := "config"
                     ConfigMap := some { Name := proxy.Spec.ProxyConfigName }
                     EmptyDir := none }] } } } }

/-- `ConstructCascadingDeployment`. -/
def ConstructCascadingDeployment (esc : String → String) (proxy : Proxy) :
    Option Deployment :=
  processOptionalParameter esc proxy (baseDeployment proxy)

/-- `ConstructCascadingService`: the service literal, then the node port of
its first (and only) port binding when the exposure type is NodePort. -/
def ConstructCascadingService (proxy : Proxy) : Service :=
  let svc : Service :=
    { ObjectMeta :=
        { Name := proxy.Meta.Name
          Namespace := proxy.Meta.Namespace
          Labels := []
          OwnerReferences := [NewControllerRef proxy.Meta] }
      Spec :=
        { Selector := [("apps", proxy.Meta.Name)]
          Type_ := proxy.Spec.ServiceType.Type_
          Ports :=
            [{ Name := "proxy-port"
               TargetPort :=
                 { Type_ := IntstrType.Int, IntVal := proxy.Spec.Port, StrVal := "" }
               Port := proxy.Spec.Port
               NodePort := 0 }] } }
  if proxy.Spec.ServiceType.Type_ = ServiceTypeNodePort then
    { svc with Spec := { svc.Spec with
        Ports := svc.Spec.Ports.modifyHead
          (fun sp => { sp with NodePort := proxy.Spec.ServiceType.NodePort }) } }
  else
    svc

/-- `UpdateDeployment`: overwrites the spec-derived fields of a stored
deployment in place. Each indexed or dereferenced access that the code
performs without a guard yields `none` when its target is absent. -/
def UpdateDeployment (esc : String → String) (proxy : Proxy) (runtimeDeployment : Deployment) :
    Option Deployment := do
  let d1 ← runtimeDeployment.modifyMain (fun c =>
    { c with Image := "apache/shardingsphere-proxy:" ++ proxy.Spec.Version })
  let d2 : Deployment := { d1 with Spec := { d1.Spec with Replicas := some proxy.Spec.Replicas } }
  let d3 ← match d2.pod.Volumes with
    | [] => none
    | v :: vs =>
      match v.ConfigMap with
      | none => none
      | some src =>
        some (d2.setPod { d2.pod with Volumes :=
          { v with ConfigMap := some { src with Name := proxy.Spec.ProxyConfigName } } :: vs })
  let d4 ← match d3.pod.Containers with
    | [] => none
    | c :: cs =>
      match c.Env with
      | [] => none
      | e :: es =>
        some (d3.setPod { d3.pod with Containers :=
          { c with Env := { e with Value := FormatInt proxy.Spec.Port } :: es } :: cs })
  let d5 ← match d4.pod.Containers with
    | [] => none
    | c :: cs =>
      match c.Ports with
      | [] => none
      | pt :: pts =>
        some (d4.setPod { d4.pod with Containers :=
          { c with Ports := { pt with ContainerPort := proxy.Spec.Port } :: pts } :: cs })
  let mysql ← proxy.Spec.MySQLDriver
  let d6 ← if mysql.Version ≠ "" then updateInitContainer esc d5 mysql else some d5
  let r ← proxy.Spec.Resources
  let d7 ← d6.modifyMain (fun c => { c with Resources := r })
  let d8 ← d7.modifyMain (fun c => { c with LivenessProbe := proxy.Spec.LivenessProbe })
  let d9 ← d8.modifyMain (fun c => { c with ReadinessProbe := proxy.Spec.ReadinessProbe })
  d9.modifyMain (fun c => { c with StartupProbe := proxy.Spec.StartupProbe })

/-! ## The object repository and the ProxyConfig convergence loop -/

/-- The result of a repository read: the object, the not-found signal, or
another error. -/
inductive GetResult (α : Type) where
  | found (a : α)
  | notFound
  | failed (err : String)
  deriving DecidableEq, Repr

/-- The repository contents under the identity key of the request: the
ProxyConfig record and the configuration artifact, each present or absent. -/
structure Store where
  record : Option ProxyConfig
  artifact : Option ConfigMap
  deriving DecidableEq, Repr

/-- Which repository calls of one pass fail with an error other than
not-found, and with which error. A pass issues each kind of call at most
once. -/
structure Faults where
  getRecord : Option String
  getArtifact : Option String
  create : Option String
  update : Option String
  statusUpdate : Option String
  deriving DecidableEq, Repr

/-- A repository call issued by `Reconcile`, with the object it sends. -/
inductive Call where
  | getRecord
  | getArtifact
  | create (cm : ConfigMap)
  | update (cm : ConfigMap)
  | statusUpdate (run : ProxyConfig)
  deriving DecidableEq, Repr

/-- A `ctrl.Result`. -/
structure Result where
  Requeue : Bool
  RequeueAfter : Int
  deriving DecidableEq, Repr

/-- What one pass of `Reconcile` leaves behind: the store, the calls it
issued in order, and the returned pair of result and error. -/
structure Outcome where
  store : Store
  calls : List Call
  result : Result
  err : Option String
  deriving DecidableEq, Repr

/-- `r.Get` for the ProxyConfig record. -/
def Store.getRecord (s : Store) (f : Faults) : GetResult ProxyConfig :=
  match f.getRecord with
  | some e => GetResult.failed e
  | none =>
    match s.record with
    | some run => GetResult.found run
    | none => GetResult.notFound

/-- `r.Get` for the stored artifact. -/
def Store.getArtifact (s : Store) (f : Faults) : GetResult ConfigMap :=
  match f.getArtifact with
  | some e => GetResult.failed e
  | none =>
    match s.artifact with
    | some cm => GetResult.found cm
    | none => GetResult.notFound

/-- The store after a successful `r.Create` of an artifact. -/
def Store.create (s : Store) (cm : ConfigMap) : Store :=
  { s with artifact := some cm }

/-- The store after a successful `r.Update` of an artifact. -/
def Store.update (s : Store) (cm : ConfigMap) : Store :=
  { s with artifact := some cm }

/-- The store after a successful `r.Status().Update`: only the status
sub-record of the stored record is replaced. -/
def Store.statusUpdate (s : Store) (run : ProxyConfig) : Store :=
  { s with record := s.record.map (fun stored => { stored with Status := run.Status }) }

/-- Modelled from the spec: `ProxyConfig.SetMetadataRepository`, declared in the
API package, which is not part of the sources; it sets the status field that
records the last-applied metadata-repository kind. -/
def SetMetadataRepository (run : ProxyConfig) (metadataType : String) : ProxyConfig :=
  { run with Status := { run.Status with MetadataRepository := metadataType } }

/-- `equality.Semantic.DeepEqual` on two `map[string]string` values: every key
of either map is bound to the same value, or to none, in both. -/
def DeepEqual (a b : List (String × String)) : Bool :=
  (a.map Prod.fst ++ b.map Prod.fst).all (fun k => a.lookup k == b.lookup k)

/-- `ctrl.Result{RequeueAfter: SyncBuildStatusInterval}`. -/
def requeueAfter (interval : Int) : Result :=
  { Requeue := false, RequeueAfter := interval }

/-- `ctrl.Result{}`. -/
def noRequeue : Result :=
  { Requeue := false, RequeueAfter := 0 }

/-- `ProxyConfigReconciler.Reconcile` for one request. `SyncBuildStatusInterval`
is the package constant of that name, declared outside the sources. -/
def Reconcile (marshal : ProxyConfigSpec → String) (SyncBuildStatusInterval : Int)
    (f : Faults) (s : Store) : Outcome :=
  match s.getRecord f with
  | GetResult.notFound =>
    { store := s, calls := [Call.getRecord], result := noRequeue, err := none }
  | GetResult.failed e =>
    { store := s, calls := [Call.getRecord]
      result := requeueAfter SyncBuildStatusInterval, err := some e }
  | GetResult.found run0 =>
    let built := ConstructCascadingConfigmap marshal run0
    let run := built.1
    let configmap := built.2
    match s.getArtifact f with
    | GetResult.notFound =>
      match f.create with
      | some e =>
        { store := s, calls := [Call.getRecord, Call.getArtifact, Call.create configmap]
          result := requeueAfter SyncBuildStatusInterval, err := some e }
      | none =>
        let s1 := s.create configmap
        let run1 := SetMetadataRepository run run.Spec.ClusterConfig.Repository.Type_
        match f.statusUpdate with
        | some e =>
          { store := s1
            calls := [Call.getRecord, Call.getArtifact, Call.create configmap,
              Call.statusUpdate run1]
            result := requeueAfter SyncBuildStatusInterval, err := some e }
        | none =>
          { store := s1.statusUpdate run1
            calls := [Call.getRecord, Call.getArtifact, Call.create configmap,
              Call.statusUpdate run1]
            result := noRequeue, err := none }
    | GetResult.failed e =>
      { store := s, calls := [Call.getRecord, Call.getArtifact]
        result := requeueAfter SyncBuildStatusInterval, err := some e }
    | GetResult.found cm =>
      let afterData : Except Outcome (Store × List Call) :=
        if ¬ DeepEqual configmap.Data cm.Data then
          match f.update with
          | some e =>
            Except.error
              { store := s
                calls := [Call.getRecord, Call.getArtifact, Call.update configmap]
                result := requeueAfter SyncBuildStatusInterval, err := some e }
          | none =>
            Except.ok (s.update configmap,
              [Call.getRecord, Call.getArtifact, Call.update configmap])
        else
          Except.ok (s, [Call.getRecord, Call.getArtifact])
      match afterData with
      | Except.error out => out
      | Except.ok (s2, calls2) =>
        if run.Status.MetadataRepository ≠ run.Spec.ClusterConfig.Repository.Type_ ∨
            run.Status.MetadataRepository = "" then
          let run1 := SetMetadataRepository run run.Spec.ClusterConfig.Repository.Type_
          match f.statusUpdate with
          | some e =>
            { store := s2, calls := calls2 ++ [Call.statusUpdate run1]
              result := requeueAfter SyncBuildStatusInterval, err := some e }
          | none =>
            { store := s2.statusUpdate run1, calls := calls2 ++ [Call.statusUpdate run1]
              result := noRequeue, err := none }
        else
          { store := s2, calls := calls2, result := noRequeue, err := none }

/-- Whether a call writes the configuration artifact (a create or an update). -/
def Call.isArtifactWrite : Call → Bool
  | Call.create _ => true
  | Call.update _ => true
  | _ => false

/-- Whether a call is the create of an artifact. -/
def Call.isCreate : Call → Bool
  | Call.create _ => true
  | _ => false

/-- Whether a call is the update of an artifact. -/
def Call.isUpdate : Call → Bool
  | Call.update _ => true
  | _ => false

/-- Whether a call is a status update. -/
def Call.isStatusUpdate : Call → Bool
  | Call.statusUpdate _ => true
  | _ => false

/-- The error, if any, with which a call of the given kind fails in a pass. -/
def Faults.failureOf (f : Faults) : Call → Option String
  | Call.getRecord => f.getRecord
  | Call.getArtifact => f.getArtifact
  | Call.create _ => f.create
  | Call.update _ => f.update
  | Call.statusUpdate _ => f.statusUpdate

/-- A pass in which no repository call fails. -/
def noFaults : Faults :=
  { getRecord := none, getArtifact := none, create := none, update := none
    statusUpdate := none }

/-- Successive passes of `Reconcile`, one per entry of the list of faults, each
on the store left by the previous one; the outcomes in order. -/
def runPasses (marshal : ProxyConfigSpec → String) (SyncBuildStatusInterval : Int) :
    List Faults → Store → List Outcome
  | [], _ => []
  | f :: fs, s =>
    Reconcile marshal SyncBuildStatusInterval f s ::
      runPasses marshal SyncBuildStatusInterval fs
        (Reconcile marshal SyncBuildStatusInterval f s).store

/-- Successive calls of `UpdateDeployment` on one stored deployment, one per
record of the list, in order. -/
def updateAll (esc : String → String) : List Proxy → Deployment → Option Deployment
  | [], dp => some dp
  | p :: ps, dp =>
    match UpdateDeployment esc p dp with
    | none => none
    | some dp1 => updateAll esc ps dp1

/-- Volume well-formedness of a deployment: every volume mount of every
container and of every init container names a declared volume, no volume
name is declared twice, and no container mounts a name twice. -/
def volumesWellFormed (dp : Deployment) : Prop :=
  (∀ c ∈ dp.pod.Containers, ∀ vm ∈ c.VolumeMounts,
    vm.Name ∈ dp.pod.Volumes.map Volume.Name) ∧
  (∀ c ∈ dp.pod.InitContainers, ∀ vm ∈ c.VolumeMounts,
    vm.Name ∈ dp.pod.Volumes.map Volume.Name) ∧
  (dp.pod.Volumes.map Volume.Name).Nodup ∧
  (∀ c ∈ dp.pod.Containers, (c.VolumeMounts.map VolumeMount.Name).Nodup)

/-- The two volume layouts of a deployment with a single main container that
has an environment binding and a port, and whose first volume is bound to a
configuration artifact: without init step, only `config` is declared and
mounted; with init steps, each of which mounts `mysql-connect-jar`, the
volumes and the mounts of the main container are `config` and
`mysql-connect-jar`. -/
def stdLayout (dp : Deployment) : Prop :=
  ∃ c, dp.pod.Containers = [c] ∧ c.Env ≠ [] ∧ c.Ports ≠ [] ∧
    (∃ v0 vs src, dp.pod.Volumes = v0 :: vs ∧ v0.ConfigMap = some src) ∧
    ((dp.pod.InitContainers = [] ∧
        c.VolumeMounts.map VolumeMount.Name = ["config"] ∧
        dp.pod.Volumes.map Volume.Name = ["config"]) ∨
     (dp.pod.InitContainers ≠ [] ∧
        (∀ ic ∈ dp.pod.InitContainers,
          ic.VolumeMounts.map VolumeMount.Name = ["mysql-connect-jar"]) ∧
        c.VolumeMounts.map VolumeMount.Name = ["config", "mysql-connect-jar"] ∧
        dp.pod.Volumes.map Volume.Name = ["config", "mysql-connect-jar"]))

/-! ## Sample records -/

/-- A Proxy record `proxy-a` on port 3307 without driver or overrides. -/
def sampleProxy : Proxy :=
  { Meta :=
      { APIVersion := "shardingsphere.sphere-ex.com/v1alpha1", Kind := "Proxy"
        Name := "proxy-a", Namespace := "default", UID := "uid-1" }
    Spec :=
      { Version := "5.1.2"
        ServiceType := { Type_ := "ClusterIP", NodePort := 30007 }
        Replicas := 2
        ProxyConfigName := "proxy-a-config"
        Port := 3307
        MySQLDriver := none
        Resources := none
        LivenessProbe := none
        ReadinessProbe := none
        StartupProbe := none } }

/-- The deployment of `sampleProxy` after a driver of version 8.0.28 was
injected. -/
def driverDeployment : Deployment :=
  (addInitContainer (fun v => v) (baseDeployment sampleProxy) { Version := "8.0.28" }).getD
    (baseDeployment sampleProxy)

/-- A ProxyConfig record with one user whose composite field is still empty. -/
def sampleProxyConfig : ProxyConfig :=
  { Meta :=
      { APIVersion := "shardingsphere.sphere-ex.com/v1alpha1", Kind := "ProxyConfig"
        Name := "proxy-a-config", Namespace := "default", UID := "uid-2" }
    Spec :=
      { Authority :=
          { Users := [{ UserName := "root", HostName := "%", PassWord := "pw", UserConfig := "" }] }
        ClusterConfig := { Repository := { Type_ := "ZooKeeper" } }
        Extra := "" }
    Status := { MetadataRepository := "" } }

/-- A stand-in serializer for the samples: the composite credentials, one
per line. -/
def sampleMarshal (spec : ProxyConfigSpec) : String :=
  String.join (spec.Authority.Users.map (fun u => u.UserConfig ++ "\n"))

/-- An artifact with the data derived from `sampleProxyConfig` under
`sampleMarshal`, but without owner references. -/
def convergedArtifact : ConfigMap :=
  { ObjectMeta :=
      { Name := "proxy-a-config", Namespace := "default", Labels := []
        OwnerReferences := [] }
    Data := [("server.yaml", "root@%:pw\n")] }

/-- A store holding `sampleProxyConfig` and `convergedArtifact`. -/
def convergedStore : Store :=
  { record := some sampleProxyConfig
    artifact := some convergedArtifact }

/-- A ProxyConfig record whose declared repository kind and stored status are
both the empty string. -/
def blankKindConfig : ProxyConfig :=
  { Meta :=
      { APIVersion := "shardingsphere.sphere-ex.com/v1alpha1", Kind := "ProxyConfig"
        Name := "proxy-a-config", Namespace := "default", UID := "uid-2" }
    Spec :=
      { Authority :=
          { Users := [{ UserName := "root", HostName := "%", PassWord := "pw", UserConfig := "" }] }
        ClusterConfig := { Repository := { Type_ := "" } }
        Extra := "" }
    Status := { MetadataRepository := "" } }

/-- A store holding `blankKindConfig` and its derived artifact data. -/
def blankKindStore : Store :=
  { record := some blankKindConfig
    artifact := some convergedArtifact }

/-- A ProxyConfig record whose stored status already equals the declared
repository kind `ZooKeeper`. -/
def syncedConfig : ProxyConfig :=
  { Meta :=
      { APIVersion := "shardingsphere.sphere-ex.com/v1alpha1", Kind := "ProxyConfig"
        Name := "proxy-a-config", Namespace := "default", UID := "uid-2" }
    Spec :=
      { Authority :=
          { Users := [{ UserName := "root", HostName := "%", PassWord := "pw", UserConfig := "" }] }
        ClusterConfig := { Repository := { Type_ := "ZooKeeper" } }
        Extra := "" }
    Status := { MetadataRepository := "ZooKeeper" } }

/-- A store holding `syncedConfig` and no artifact. -/
def syncedNoArtifactStore : Store :=
  { record := some syncedConfig, artifact := none }

/-- A store holding `sampleProxyConfig` and no artifact. -/
def noArtifactStore : Store :=
  { record := some sampleProxyConfig, artifact := none }

/-- A pass in which only the status update fails. -/
def statusUpdateFails : Faults :=
  { getRecord := none, getArtifact := none, create := none, update := none
    statusUpdate := some "conflict" }

/-- A stand-in decoder for the samples: the non-empty lines of the text. -/
def sampleDecode (text : String) : List (List Char) :=
  (text.data.foldr
    (fun ch acc =>
      if ch = Char.ofNat 10 then [] :: acc
      else
        match acc with
        | [] => [[ch]]
        | l :: ls => (ch :: l) :: ls)
    [[]]).filter (fun l => l ≠ [])

/-- An artifact whose text is the derived text of `sampleProxyConfig` followed
by one more line break. -/
def reformattedArtifact : ConfigMap :=
  { ObjectMeta :=
      { Name := "proxy-a-config", Namespace := "default", Labels := []
        OwnerReferences := [] }
    Data := [("server.yaml", "root@%:pw\n\n")] }

/-- A store holding `sampleProxyConfig` and `reformattedArtifact`. -/
def reformattedStore : Store :=
  { record := some sampleProxyConfig
    artifact := some reformattedArtifact }

/-- A store whose record was deleted while its artifact is still stored. -/
def deletedRecordStore : Store :=
  { record := none, artifact := some convergedArtifact }

/-- A Proxy record with the identity of `sampleProxy` that carries a driver
descriptor, a resource override and all three probe overrides. -/
def overrideProxy : Proxy :=
  { Meta := sampleProxy.Meta
    Spec :=
      { Version := "5.2.0"
        ServiceType := { Type_ := "NodePort", NodePort := 30007 }
        Replicas := 3
        ProxyConfigName := "proxy-b-config"
        Port := 3308
        MySQLDriver := some { Version := "8.0.30" }
        Resources := some
          { Limits := [("cpu", { Literal := "2" })], Requests := [("cpu", { Literal := "1" })] }
        LivenessProbe := some (tcpProbe 3308 20 3)
        ReadinessProbe := some (tcpProbe 3308 20 3)
        StartupProbe := some (tcpProbe 3308 10 6) } }

/-- A Proxy record with a driver descriptor and a resource override but no
probe overrides. -/
def driverProxy : Proxy :=
  { Meta := sampleProxy.Meta
    Spec :=
      { Version := "5.1.2"
        ServiceType := { Type_ := "ClusterIP", NodePort := 0 }
        Replicas := 2
        ProxyConfigName := "proxy-a-config"
        Port := 3307
        MySQLDriver := some { Version := "8.0.28" }
        Resources := some
          { Limits := [], Requests := [("cpu", { Literal := "1" })] }
        LivenessProbe := none
        ReadinessProbe := none
        StartupProbe := none } }

/-! ## Credential composition and the configuration artifact -/

theorem composeUsers_length (us : List User) :
    (composeUsers us).length = us.length := by
  induction us with
  | nil => rfl
  | cons u us ih => simp [composeUsers, ih]

theorem composeUsers_eq_map (us : List User) :
    composeUsers us = us.map composeUser := by
  induction us with
  | nil => rfl
  | cons u us ih => simp [composeUsers, ih]

theorem composeUser_composeUser (u : User) :
    composeUser (composeUser u) = composeUser u := rfl

theorem composeUsers_composeUsers (us : List User) :
    composeUsers (composeUsers us) = composeUsers us := by
  induction us with
  | nil => rfl
  | cons u us ih => simp [composeUsers, ih, composeUser_composeUser]

theorem toYaml_toYaml (marshal : ProxyConfigSpec → String) (pc : ProxyConfig) :
    toYaml marshal (toYaml marshal pc).1 = toYaml marshal pc := by
  simp [toYaml, composeUsers_composeUsers]

/-- C1: credential composition is idempotent. A second call of `toYaml`, or of
`ConstructCascadingConfigmap`, on the record as left by the first call leaves
the record unchanged, so every user's `UserConfig` keeps its value; that
value is `UserName@HostName:PassWord` of the original entry whatever
`UserConfig` held before, so no suffix is appended a second time. -/
theorem toYaml_composition_idempotent (marshal : ProxyConfigSpec → String) (pc : ProxyConfig) :
    (toYaml marshal (toYaml marshal pc).1).1 = (toYaml marshal pc).1 ∧
    (ConstructCascadingConfigmap marshal (ConstructCascadingConfigmap marshal pc).1).1 =
      (ConstructCascadingConfigmap marshal pc).1 ∧
    (toYaml marshal (toYaml marshal pc).1).1.Spec.Authority.Users.map User.UserConfig =
      (toYaml marshal pc).1.Spec.Authority.Users.map User.UserConfig ∧
    (toYaml marshal (toYaml marshal pc).1).1.Spec.Authority.Users.map User.UserConfig =
      pc.Spec.Authority.Users.map
        (fun u => u.UserName ++ "@" ++ u.HostName ++ ":" ++ u.PassWord) := by
  have h := toYaml_toYaml marshal pc
  refine ⟨by rw [h], ?_, by rw [h], ?_⟩
  · simp only [ConstructCascadingConfigmap]
    rw [h]
  · rw [h]
    simp [toYaml, composeUsers_eq_map, composeUser]

/-- C2: the artifact built by `ConstructCascadingConfigmap` carries the
record's name and namespace and exactly one data entry, keyed `server.yaml`,
whose value is the serialization of the spec of the rewritten record; in
that record every entry's composite field is
`UserName ++ "@" ++ HostName ++ ":" ++ PassWord` of the same entry, and the
number of users and each entry's `UserName`, `HostName` and `PassWord` are
those of the input. -/
theorem ConstructCascadingConfigmap_artifact (marshal : ProxyConfigSpec → String)
    (pc : ProxyConfig) :
    (ConstructCascadingConfigmap marshal pc).2.ObjectMeta.Name = pc.Meta.Name ∧
    (ConstructCascadingConfigmap marshal pc).2.ObjectMeta.Namespace = pc.Meta.Namespace ∧
    (ConstructCascadingConfigmap marshal pc).2.Data =
      [("server.yaml", marshal (ConstructCascadingConfigmap marshal pc).1.Spec)] ∧
    (ConstructCascadingConfigmap marshal pc).1.Spec.Authority.Users.map User.UserConfig =
      (ConstructCascadingConfigmap marshal pc).1.Spec.Authority.Users.map
        (fun u => u.UserName ++ "@" ++ u.HostName ++ ":" ++ u.PassWord) ∧
    (ConstructCascadingConfigmap marshal pc).1.Spec.Authority.Users.length =
      pc.Spec.Authority.Users.length ∧
    (ConstructCascadingConfigmap marshal pc).1.Spec.Authority.Users.map User.UserName =
      pc.Spec.Authority.Users.map User.UserName ∧
    (ConstructCascadingConfigmap marshal pc).1.Spec.Authority.Users.map User.HostName =
      pc.Spec.Authority.Users.map User.HostName ∧
    (ConstructCascadingConfigmap marshal pc).1.Spec.Authority.Users.map User.PassWord =
      pc.Spec.Authority.Users.map User.PassWord ∧
    (ConstructCascadingConfigmap marshal pc).1.Spec.ClusterConfig = pc.Spec.ClusterConfig ∧
    (ConstructCascadingConfigmap marshal pc).1.Spec.Extra = pc.Spec.Extra := by
  refine ⟨rfl, rfl, rfl, ?_, ?_, ?_, ?_, ?_, rfl, rfl⟩
  · simp [ConstructCascadingConfigmap, toYaml, composeUsers_eq_map, composeUser]
  · simp [ConstructCascadingConfigmap, toYaml, composeUsers_length]
  · simp [ConstructCascadingConfigmap, toYaml, composeUsers_eq_map, composeUser]
  · simp [ConstructCascadingConfigmap, toYaml, composeUsers_eq_map, composeUser]
  · simp [ConstructCascadingConfigmap, toYaml, composeUsers_eq_map, composeUser]

/-! ## The workload and service builders -/

theorem FormatInt_eq_repr (i : Int) : FormatInt i = Int.repr i := by
  cases i <;> rfl

theorem ConstructCascadingDeployment_isSome (esc : String → String) (proxy : Proxy) :
    ∃ dp c, ConstructCascadingDeployment esc proxy = some dp ∧ dp.pod.Containers = [c] := by
  rcases proxy with ⟨m, ⟨v, st, rep, pcn, port, drv, res, lp, rp, sp⟩⟩
  cases drv <;> cases res <;> cases lp <;> cases rp <;> cases sp <;>
    exact ⟨_, _, rfl, rfl⟩

/-- C3: builder idempotence. `ConstructCascadingConfigmap` applied to the
record as mutated by a first application returns the same artifact (and
leaves the record as it is); `ConstructCascadingDeployment` always returns a
deployment, and it and `ConstructCascadingService`, which read the Proxy
record without writing to it, return equal objects when applied twice to
the same record. The serializer is taken to be a function of the spec. -/
theorem builder_idempotent (marshal : ProxyConfigSpec → String) (esc : String → String)
    (pc : ProxyConfig) (proxy : Proxy) :
    (ConstructCascadingConfigmap marshal (ConstructCascadingConfigmap marshal pc).1).2 =
      (ConstructCascadingConfigmap marshal pc).2 ∧
    (ConstructCascadingConfigmap marshal (ConstructCascadingConfigmap marshal pc).1).1 =
      (ConstructCascadingConfigmap marshal pc).1 ∧
    (∃ dp, ConstructCascadingDeployment esc proxy = some dp ∧
      ConstructCascadingDeployment esc proxy = some dp) ∧
    ConstructCascadingService proxy = ConstructCascadingService proxy := by
  have h := toYaml_toYaml marshal pc
  refine ⟨?_, ?_, ?_, rfl⟩
  · simp only [ConstructCascadingConfigmap]
    rw [h]
  · simp only [ConstructCascadingConfigmap]
    rw [h]
  · obtain ⟨dp, _, hdp, _⟩ := ConstructCascadingDeployment_isSome esc proxy
    exact ⟨dp, hdp, hdp⟩

/-- C4: default-or-override policy. In the deployment returned by
`ConstructCascadingDeployment` the single main container has: the spec's
resource override when given, otherwise requests of CPU `0.2` and memory
`1.6Gi` and no limits; as liveness and as readiness probe the spec's override
when given, otherwise a TCP check on the spec's port with period 10; as
startup probe the spec's override when given, otherwise a TCP check on the
spec's port with period 5 and failure threshold 12. Each of the four fields
is determined by its own override (and the port) alone. -/
theorem ConstructCascadingDeployment_default_or_override (esc : String → String)
    (proxy : Proxy) :
    ∃ dp c, ConstructCascadingDeployment esc proxy = some dp ∧ dp.pod.Containers = [c] ∧
      c.Resources = proxy.Spec.Resources.getD
        { Limits := []
          Requests := [("cpu", { Literal := "0.2" }), ("memory", { Literal := "1.6Gi" })] } ∧
      c.LivenessProbe = some (proxy.Spec.LivenessProbe.getD
        { Exec := none, HTTPGet := none
          TCPSocket := some
            { Port := { Type_ := IntstrType.Int, IntVal := proxy.Spec.Port, StrVal := "" }
              Host := "" }
          InitialDelaySeconds := 0, TimeoutSeconds := 0, PeriodSeconds := 10
          SuccessThreshold := 0, FailureThreshold := 0 }) ∧
      c.ReadinessProbe = some (proxy.Spec.ReadinessProbe.getD
        { Exec := none, HTTPGet := none
          TCPSocket := some
            { Port := { Type_ := IntstrType.Int, IntVal := proxy.Spec.Port, StrVal := "" }
              Host := "" }
          InitialDelaySeconds := 0, TimeoutSeconds := 0, PeriodSeconds := 10
          SuccessThreshold := 0, FailureThreshold := 0 }) ∧
      c.StartupProbe = some (proxy.Spec.StartupProbe.getD
        { Exec := none, HTTPGet := none
          TCPSocket := some
            { Port := { Type_ := IntstrType.Int, IntVal := proxy.Spec.Port, StrVal := "" }
              Host := "" }
          InitialDelaySeconds := 0, TimeoutSeconds := 0, PeriodSeconds := 5
          SuccessThreshold := 0, FailureThreshold := 12 }) := by
  rcases proxy with ⟨m, ⟨v, st, rep, pcn, port, drv, res, lp, rp, sp⟩⟩
  cases drv <;> cases res <;> cases lp <;> cases rp <;> cases sp <;>
    exact ⟨_, _, rfl, rfl, rfl, rfl, rfl, rfl⟩

theorem ConstructCascadingService_ports (proxy : Proxy) :
    ∃ sp, (ConstructCascadingService proxy).Spec.Ports = [sp] ∧
      sp.NodePort =
        (if proxy.Spec.ServiceType.Type_ = "NodePort" then proxy.Spec.ServiceType.NodePort
         else 0) ∧
      sp.Port = proxy.Spec.Port := by
  by_cases h : proxy.Spec.ServiceType.Type_ = "NodePort"
  · refine ⟨{ Name := "proxy-port"
              TargetPort := { Type_ := IntstrType.Int, IntVal := proxy.Spec.Port, StrVal := "" }
              Port := proxy.Spec.Port
              NodePort := proxy.Spec.ServiceType.NodePort }, ?_, ?_, rfl⟩
    · simp only [ConstructCascadingService, ServiceTypeNodePort, h, if_true, List.modifyHead]
    · simp only [h, if_true]
  · refine ⟨{ Name := "proxy-port"
              TargetPort := { Type_ := IntstrType.Int, IntVal := proxy.Spec.Port, StrVal := "" }
              Port := proxy.Spec.Port
              NodePort := 0 }, ?_, ?_, rfl⟩
    · simp only [ConstructCascadingService, ServiceTypeNodePort, h, if_false]
    · simp only [h, if_false]

theorem ConstructCascadingService_targetPort (proxy : Proxy) (sp : ServicePort)
    (h : (ConstructCascadingService proxy).Spec.Ports = [sp]) :
    sp.TargetPort = { Type_ := IntstrType.Int, IntVal := sp.Port, StrVal := "" } := by
  unfold ConstructCascadingService at h
  split at h
  · simp only [List.modifyHead, List.cons.injEq, and_true] at h
    rw [← h]
  · simp only [List.cons.injEq, and_true] at h
    rw [← h]

/-- C5: the service built by `ConstructCascadingService` has exactly one port
binding, and the node port of that binding is the spec's `NodePort` when the
exposure type is `NodePort` and is unset (zero) for every other exposure
type, whatever `NodePort` value the spec carries. -/
theorem ConstructCascadingService_nodePort (proxy : Proxy) :
    ∃ sp, (ConstructCascadingService proxy).Spec.Ports = [sp] ∧
      sp.NodePort =
        (if proxy.Spec.ServiceType.Type_ = "NodePort" then proxy.Spec.ServiceType.NodePort
         else 0) ∧
      sp.Port = proxy.Spec.Port := by
  by_cases h : proxy.Spec.ServiceType.Type_ = "NodePort"
  · refine ⟨{ Name := "proxy-port"
              TargetPort := { Type_ := IntstrType.Int, IntVal := proxy.Spec.Port, StrVal := "" }
              Port := proxy.Spec.Port
              NodePort := proxy.Spec.ServiceType.NodePort }, ?_, ?_, rfl⟩
    · simp only [ConstructCascadingService, ServiceTypeNodePort, h, if_true, List.modifyHead]
    · simp only [h, if_true]
  · refine ⟨{ Name := "proxy-port"
              TargetPort := { Type_ := IntstrType.Int, IntVal := proxy.Spec.Port, StrVal := "" }
              Port := proxy.Spec.Port
              NodePort := 0 }, ?_, ?_, rfl⟩
    · simp only [ConstructCascadingService, ServiceTypeNodePort, h, if_false]
    · simp only [h, if_false]

/-- C6: driver bootstrap idempotent replace. For every deployment that has a
main container (as every deployment handed to `updateInitContainer` has, its
caller having indexed `Containers[0]` before) or already has an init step, and
every driver descriptor, `updateInitContainer` returns a deployment with
exactly one init step, whatever init steps were there before: none, one for
another version, or several. That step is built from the given descriptor:
its command runs the download script in which every occurrence of the
version is the escaped version of the descriptor. A second application with
the same descriptor returns the deployment unchanged. -/
theorem updateInitContainer_single_init_step (esc : String → String) (dp : Deployment)
    (mysql : MySQLDriver)
    (h : dp.pod.Containers ≠ [] ∨ dp.pod.InitContainers ≠ []) :
    ∃ dp1 ic, updateInitContainer esc dp mysql = some dp1 ∧
      dp1.pod.InitContainers = [ic] ∧
      dp1.pod.InitContainers.length = 1 ∧
      ic.Name = "download-mysql-connect" ∧
      ic.Image = "busybox:1.35.0" ∧
      ic.Command = ["/bin/sh", "-c",
        "wget https://repo1.maven.org/maven2/mysql/mysql-connector-java/" ++
          esc mysql.Version ++ "/mysql-connector-java-" ++ esc mysql.Version ++ ".jar;\n" ++
        "wget https://repo1.maven.org/maven2/mysql/mysql-connector-java/" ++
          esc mysql.Version ++ "/mysql-connector-java-" ++ esc mysql.Version ++
          ".jar.md5;\n" ++
        "if [ $(md5sum /mysql-connector-java-" ++ esc mysql.Version ++
          ".jar | cut -d ' ' -f1) = $(cat /mysql-connector-java-" ++ esc mysql.Version ++
          ".jar.md5) ];\n" ++
        "then echo success;\n" ++
        "else echo failed;exit 1;fi;mv /mysql-connector-java-" ++ esc mysql.Version ++
          ".jar /opt/shardingsphere-proxy/ext-lib"] ∧
      ic.VolumeMounts =
        [{ Name := "mysql-connect-jar", MountPath := "/opt/shardingsphere-proxy/ext-lib" }] ∧
      updateInitContainer esc dp1 mysql = some dp1 := by
  rcases dp with ⟨om, ⟨strat, reps, sel, ⟨tm, ⟨ics, cs, vs⟩⟩⟩⟩
  cases ics with
  | cons ic ics => exact ⟨_, _, rfl, rfl, rfl, rfl, rfl, rfl, rfl, rfl⟩
  | nil =>
    cases cs with
    | nil => simp [Deployment.pod] at h
    | cons c cs => exact ⟨_, _, rfl, rfl, rfl, rfl, rfl, rfl, rfl, rfl⟩

set_option maxRecDepth 100000 in
/-- Witness for C6: the deployment of `sampleProxy` carries the init step for
driver 8.0.28; `updateInitContainer` for 8.0.30 leaves exactly one init step,
whose script names 8.0.30 throughout, and a second application changes
nothing. -/
theorem updateInitContainer_single_init_step_witness :
    (driverDeployment.pod.Containers ≠ [] ∨ driverDeployment.pod.InitContainers ≠ []) ∧
    driverDeployment.pod.InitContainers.map Container.Command =
      [["/bin/sh", "-c",
        "wget https://repo1.maven.org/maven2/mysql/mysql-connector-java/8.0.28/mysql-connector-java-8.0.28.jar;\nwget https://repo1.maven.org/maven2/mysql/mysql-connector-java/8.0.28/mysql-connector-java-8.0.28.jar.md5;\nif [ $(md5sum /mysql-connector-java-8.0.28.jar | cut -d ' ' -f1) = $(cat /mysql-connector-java-8.0.28.jar.md5) ];\nthen echo success;\nelse echo failed;exit 1;fi;mv /mysql-connector-java-8.0.28.jar /opt/shardingsphere-proxy/ext-lib"]] ∧
    ∃ dp1, updateInitContainer (fun v => v) driverDeployment { Version := "8.0.30" } = some dp1 ∧
      dp1.pod.InitContainers.length = 1 ∧
      dp1.pod.InitContainers.map Container.Command =
        [["/bin/sh", "-c",
          "wget https://repo1.maven.org/maven2/mysql/mysql-connector-java/8.0.30/mysql-connector-java-8.0.30.jar;\nwget https://repo1.maven.org/maven2/mysql/mysql-connector-java/8.0.30/mysql-connector-java-8.0.30.jar.md5;\nif [ $(md5sum /mysql-connector-java-8.0.30.jar | cut -d ' ' -f1) = $(cat /mysql-connector-java-8.0.30.jar.md5) ];\nthen echo success;\nelse echo failed;exit 1;fi;mv /mysql-connector-java-8.0.30.jar /opt/shardingsphere-proxy/ext-lib"]] ∧
      updateInitContainer (fun v => v) dp1 { Version := "8.0.30" } = some dp1 :=
  have hpre : driverDeployment.pod.Containers ≠ [] ∨ driverDeployment.pod.InitContainers ≠ [] :=
    Or.inr (by simp [driverDeployment, addInitContainer, Deployment.modifyMain, Deployment.pod,
      Deployment.setPod, baseDeployment])
  have h := updateInitContainer_single_init_step (fun v => v) driverDeployment
    { Version := "8.0.30" } hpre
  ⟨hpre, rfl,
    h.elim fun dp1 h1 => h1.elim fun ic h2 =>
      ⟨dp1, h2.1, h2.2.2.1, by rw [h2.2.1, List.map_singleton, h2.2.2.2.2.2.1]; rfl,
        h2.2.2.2.2.2.2.2⟩⟩

/-- C7: conditional driver injection at construction. The deployment returned
by `ConstructCascadingDeployment` has exactly one container; without a
driver descriptor it has no init containers, one volume mount and one
volume; with a driver descriptor it has exactly one init container, built
for that descriptor, which mounts `mysql-connect-jar`, a volume the pod
declares as an empty directory and the main container mounts too. -/
theorem ConstructCascadingDeployment_driver_injection (esc : String → String)
    (proxy : Proxy) :
    ∃ dp c, ConstructCascadingDeployment esc proxy = some dp ∧ dp.pod.Containers = [c] ∧
      match proxy.Spec.MySQLDriver with
      | none =>
        dp.pod.InitContainers = [] ∧ c.VolumeMounts.length = 1 ∧ dp.pod.Volumes.length = 1
      | some mysql =>
        ∃ ic, dp.pod.InitContainers = [ic] ∧ ic = initContainer esc mysql ∧
          ic.VolumeMounts.map VolumeMount.Name = ["mysql-connect-jar"] ∧
          dp.pod.Volumes.filter (fun v => v.Name == "mysql-connect-jar") =
            [{ Name := "mysql-connect-jar", ConfigMap := none
               EmptyDir := some { Medium := "" } }] ∧
          c.VolumeMounts.map VolumeMount.Name = ["config", "mysql-connect-jar"] := by
  rcases proxy with ⟨m, ⟨v, st, rep, pcn, port, drv, res, lp, rp, sp⟩⟩
  cases drv <;> cases res <;> cases lp <;> cases rp <;> cases sp <;>
    first
    | exact ⟨_, _, rfl, rfl, rfl, rfl, rfl⟩
    | (refine ⟨_, _, rfl, rfl, _, rfl, rfl, rfl, ?_, rfl⟩
       simp [Deployment.pod, Deployment.setPod, baseDeployment, List.filter])

/-- C8: workload construction rules. The deployment returned by
`ConstructCascadingDeployment` has rollout strategy `Recreate`, a single
main container whose image is `apache/shardingsphere-proxy:` followed by the
spec's version, the spec's replica count, the spec's port as its only
container port, the single environment binding `PORT` whose value is the
decimal rendering of the spec's port, and a volume `config`, listed first,
bound to the artifact named by `ProxyConfigName` and mounted first by the
main container. -/
theorem ConstructCascadingDeployment_construction_rules (esc : String → String)
    (proxy : Proxy) :
    ∃ dp c, ConstructCascadingDeployment esc proxy = some dp ∧ dp.pod.Containers = [c] ∧
      dp.Spec.Strategy.Type_ = "Recreate" ∧
      c.Image = "apache/shardingsphere-proxy:" ++ proxy.Spec.Version ∧
      dp.Spec.Replicas = some proxy.Spec.Replicas ∧
      c.Ports = [{ ContainerPort := proxy.Spec.Port }] ∧
      c.Env = [{ Name := "PORT", Value := Int.repr proxy.Spec.Port }] ∧
      dp.pod.Volumes.head? = some
        { Name := "config", ConfigMap := some { Name := proxy.Spec.ProxyConfigName }
          EmptyDir := none } ∧
      c.VolumeMounts.head? = some
        { Name := "config", MountPath := "/opt/shardingsphere-proxy/conf" } ∧
      dp.ObjectMeta.Name = proxy.Meta.Name ∧
      dp.ObjectMeta.Namespace = proxy.Meta.Namespace := by
  rcases proxy with ⟨m, ⟨v, st, rep, pcn, port, drv, res, lp, rp, sp⟩⟩
  have hf : FormatInt port = Int.repr port := FormatInt_eq_repr port
  cases drv <;> cases res <;> cases lp <;> cases rp <;> cases sp <;>
    exact ⟨_, _, rfl, rfl, rfl, rfl, rfl, rfl, by rw [← hf], rfl, rfl, rfl, rfl⟩

/-- C9: the service built from a Proxy record selects the pods of the
deployment built from the same record: its selector equals the pod-template
labels and the match-labels of the deployment's own selector, its single
port binding has port and integer target port equal to the deployment's
container port, and its exposure type is the spec's. -/
theorem ConstructCascadingService_matches_deployment (esc : String → String)
    (proxy : Proxy) :
    ∃ dp c sp, ConstructCascadingDeployment esc proxy = some dp ∧ dp.pod.Containers = [c] ∧
      (ConstructCascadingService proxy).Spec.Ports = [sp] ∧
      (ConstructCascadingService proxy).Spec.Selector = dp.Spec.Template.ObjectMeta.Labels ∧
      dp.Spec.Selector = some { MatchLabels := (ConstructCascadingService proxy).Spec.Selector } ∧
      c.Ports = [{ ContainerPort := sp.Port }] ∧
      sp.TargetPort = { Type_ := IntstrType.Int, IntVal := sp.Port, StrVal := "" } ∧
      sp.Port = proxy.Spec.Port ∧
      (ConstructCascadingService proxy).Spec.Type_ = proxy.Spec.ServiceType.Type_ := by
  obtain ⟨sp, hsp, _, hport⟩ := ConstructCascadingService_ports proxy
  have hsel : (ConstructCascadingService proxy).Spec.Selector = [("apps", proxy.Meta.Name)] := by
    unfold ConstructCascadingService
    split <;> rfl
  have htyp : (ConstructCascadingService proxy).Spec.Type_ = proxy.Spec.ServiceType.Type_ := by
    unfold ConstructCascadingService
    split <;> rfl
  have htp : sp.TargetPort = { Type_ := IntstrType.Int, IntVal := sp.Port, StrVal := "" } :=
    (ConstructCascadingService_targetPort proxy sp hsp)
  rw [hsel, htyp]
  rcases proxy with ⟨m, ⟨v, st, rep, pcn, port, drv, res, lp, rp, sp0⟩⟩
  simp only at hport
  subst hport
  cases drv <;> cases res <;> cases lp <;> cases rp <;> cases sp0 <;>
    exact ⟨_, _, sp, rfl, rfl, hsp, rfl, rfl, rfl, htp, rfl, rfl⟩

/-! ## The convergence loop -/

theorem DeepEqual_of_lookup_eq (a b : List (String × String))
    (h : ∀ k, a.lookup k = b.lookup k) : DeepEqual a b = true := by
  unfold DeepEqual
  rw [List.all_eq_true]
  intro k _
  rw [h k]
  exact beq_self_eq_true _

/-- C10: no-op convergence. When the record exists and the stored artifact's
data equals, as a mapping, the data of the artifact derived from the record,
`Reconcile` issues neither a create nor an update of the artifact, whatever
calls fail: its calls are the two reads, followed at most by one status
update, and the stored artifact is left as it was. -/
theorem Reconcile_noop_on_equal_data (marshal : ProxyConfigSpec → String)
    (SyncBuildStatusInterval : Int) (f : Faults) (s : Store) (run : ProxyConfig)
    (cm : ConfigMap)
    (hr : s.record = some run) (ha : s.artifact = some cm)
    (hd : ∀ k, (ConstructCascadingConfigmap marshal run).2.Data.lookup k = cm.Data.lookup k) :
    (Reconcile marshal SyncBuildStatusInterval f s).calls.all
        (fun c => !c.isArtifactWrite) = true ∧
    (Reconcile marshal SyncBuildStatusInterval f s).store.artifact = s.artifact ∧
    ((Reconcile marshal SyncBuildStatusInterval f s).calls = [Call.getRecord] ∨
     (Reconcile marshal SyncBuildStatusInterval f s).calls = [Call.getRecord, Call.getArtifact] ∨
     ∃ run1, (Reconcile marshal SyncBuildStatusInterval f s).calls =
       [Call.getRecord, Call.getArtifact, Call.statusUpdate run1]) := by
  have hde := DeepEqual_of_lookup_eq _ _ hd
  rcases f with ⟨fr, fa, fc, fu, fs⟩
  rcases s with ⟨rec, art⟩
  simp only at hr ha
  subst hr ha
  cases fr with
  | some e => simp [Reconcile, Store.getRecord, Call.isArtifactWrite]
  | none =>
    cases fa with
    | some e => simp [Reconcile, Store.getRecord, Store.getArtifact, Call.isArtifactWrite]
    | none =>
      by_cases hst : (ConstructCascadingConfigmap marshal run).1.Status.MetadataRepository ≠
          (ConstructCascadingConfigmap marshal run).1.Spec.ClusterConfig.Repository.Type_ ∨
          (ConstructCascadingConfigmap marshal run).1.Status.MetadataRepository = ""
      · cases fs with
        | some e =>
          simp [Reconcile, Store.getRecord, Store.getArtifact, Call.isArtifactWrite, hde, hst]
        | none =>
          simp [Reconcile, Store.getRecord, Store.getArtifact, Call.isArtifactWrite, hde, hst,
            Store.statusUpdate]
      · simp [Reconcile, Store.getRecord, Store.getArtifact, Call.isArtifactWrite, hde, hst]

/-- Witness for C10: the converged sample store, whose artifact carries the
derived data under other metadata; with no failing call, one pass issues the
two reads and the status update only. -/
theorem Reconcile_noop_on_equal_data_witness :
    convergedStore.record = some sampleProxyConfig ∧
    convergedStore.artifact = some convergedArtifact ∧
    (ConstructCascadingConfigmap sampleMarshal sampleProxyConfig).2.Data =
      convergedArtifact.Data ∧
    (Reconcile sampleMarshal 30
        { getRecord := none, getArtifact := none, create := none, update := none
          statusUpdate := none } convergedStore).calls.all
        (fun c => !c.isArtifactWrite) = true ∧
    (Reconcile sampleMarshal 30
        { getRecord := none, getArtifact := none, create := none, update := none
          statusUpdate := none } convergedStore).store.artifact = convergedStore.artifact :=
  have hdata : (ConstructCascadingConfigmap sampleMarshal sampleProxyConfig).2.Data =
      convergedArtifact.Data := by decide
  have h := Reconcile_noop_on_equal_data sampleMarshal 30
    { getRecord := none, getArtifact := none, create := none, update := none
      statusUpdate := none } convergedStore sampleProxyConfig convergedArtifact
    rfl rfl (fun k => congrArg (fun d => List.lookup k d) hdata)
  ⟨rfl, rfl, hdata, h.1, h.2.1⟩

theorem DeepEqual_self (a : List (String × String)) : DeepEqual a a = true :=
  DeepEqual_of_lookup_eq a a (fun _ => rfl)

theorem ConstructCascadingConfigmap_status (marshal : ProxyConfigSpec → String)
    (run : ProxyConfig) :
    (ConstructCascadingConfigmap marshal run).1.Status = run.Status := rfl

theorem ConstructCascadingConfigmap_clusterConfig (marshal : ProxyConfigSpec → String)
    (run : ProxyConfig) :
    (ConstructCascadingConfigmap marshal run).1.Spec.ClusterConfig = run.Spec.ClusterConfig :=
  rfl

theorem Reconcile_converged (marshal : ProxyConfigSpec → String)
    (SyncBuildStatusInterval : Int) (f : Faults) (s : Store) (run : ProxyConfig)
    (cm : ConfigMap)
    (hr : s.record = some run) (ha : s.artifact = some cm)
    (hde : DeepEqual (ConstructCascadingConfigmap marshal run).2.Data cm.Data = true)
    (hst : run.Status.MetadataRepository = run.Spec.ClusterConfig.Repository.Type_)
    (hne : run.Spec.ClusterConfig.Repository.Type_ ≠ "") :
    (Reconcile marshal SyncBuildStatusInterval f s).store = s ∧
    (Reconcile marshal SyncBuildStatusInterval f s).calls.any Call.isStatusUpdate = false ∧
    (Reconcile marshal SyncBuildStatusInterval f s).calls.any Call.isArtifactWrite = false := by
  rcases f with ⟨fr, fa, fc, fu, fs⟩
  rcases s with ⟨rec, art⟩
  simp only at hr ha
  subst hr ha
  cases fr with
  | some e =>
    simp [Reconcile, Store.getRecord, Call.isStatusUpdate, Call.isArtifactWrite]
  | none =>
    cases fa with
    | some e =>
      simp [Reconcile, Store.getRecord, Store.getArtifact, Call.isStatusUpdate,
        Call.isArtifactWrite]
    | none =>
      simp [Reconcile, Store.getRecord, Store.getArtifact, Call.isStatusUpdate,
        Call.isArtifactWrite, hde, hst, hne, ConstructCascadingConfigmap_status,
        ConstructCascadingConfigmap_clusterConfig]

theorem runPasses_converged (marshal : ProxyConfigSpec → String)
    (SyncBuildStatusInterval : Int) (fs : List Faults) (s : Store) (run : ProxyConfig)
    (cm : ConfigMap)
    (hr : s.record = some run) (ha : s.artifact = some cm)
    (hde : DeepEqual (ConstructCascadingConfigmap marshal run).2.Data cm.Data = true)
    (hst : run.Status.MetadataRepository = run.Spec.ClusterConfig.Repository.Type_)
    (hne : run.Spec.ClusterConfig.Repository.Type_ ≠ "") :
    (runPasses marshal SyncBuildStatusInterval fs s).all
      (fun o => !o.calls.any Call.isStatusUpdate && !o.calls.any Call.isArtifactWrite &&
        decide (o.store = s)) = true := by
  induction fs with
  | nil => rfl
  | cons f fs ih =>
    obtain ⟨h1, h2, h3⟩ :=
      Reconcile_converged marshal SyncBuildStatusInterval f s run cm hr ha hde hst hne
    simp only [runPasses, List.all_cons, h1, h2, h3, ih, Bool.not_false, Bool.and_self,
      decide_True, Bool.and_true]

/-- C11, as stated, fails when the declared repository kind is the empty
string: the stored status of `blankKindConfig` is empty, its artifact exists,
the first pass succeeds and issues one status update, and the next pass on
the unchanged record issues a status update again, because the guard of
`Reconcile` also fires on an empty status. -/
theorem Reconcile_blank_kind_repeats_status_update :
    blankKindStore.record = some blankKindConfig ∧
    blankKindStore.artifact = some convergedArtifact ∧
    blankKindConfig.Status.MetadataRepository = "" ∧
    (Reconcile sampleMarshal 30 noFaults blankKindStore).err = none ∧
    ((Reconcile sampleMarshal 30 noFaults blankKindStore).calls.filter
      Call.isStatusUpdate).length = 1 ∧
    (Reconcile sampleMarshal 30 noFaults blankKindStore).store = blankKindStore ∧
    ((Reconcile sampleMarshal 30 noFaults
        (Reconcile sampleMarshal 30 noFaults blankKindStore).store).calls.filter
      Call.isStatusUpdate).length = 1 := by
  decide

/-- C11, amended: for every ProxyConfig record whose artifact exists and whose
stored status is empty or differs from the repository kind its spec
declares, a successful pass of `Reconcile` issues exactly one status update,
which carries the declared kind, and leaves that kind as the stored status;
when the declared kind is not the empty string, every later pass on the
resulting store, whichever of its calls fail, issues no status update. -/
theorem Reconcile_status_propagation (marshal : ProxyConfigSpec → String)
    (SyncBuildStatusInterval : Int) (f : Faults) (s : Store) (run : ProxyConfig)
    (cm : ConfigMap)
    (hr : s.record = some run) (ha : s.artifact = some cm)
    (hstale : run.Status.MetadataRepository = "" ∨
      run.Status.MetadataRepository ≠ run.Spec.ClusterConfig.Repository.Type_)
    (hok : (Reconcile marshal SyncBuildStatusInterval f s).err = none) :
    (Reconcile marshal SyncBuildStatusInterval f s).calls.filter Call.isStatusUpdate =
      [Call.statusUpdate (SetMetadataRepository (ConstructCascadingConfigmap marshal run).1
        run.Spec.ClusterConfig.Repository.Type_)] ∧
    (SetMetadataRepository (ConstructCascadingConfigmap marshal run).1
        run.Spec.ClusterConfig.Repository.Type_).Status.MetadataRepository =
      run.Spec.ClusterConfig.Repository.Type_ ∧
    (Reconcile marshal SyncBuildStatusInterval f s).store.record =
      some { run with Status :=
        { MetadataRepository := run.Spec.ClusterConfig.Repository.Type_ } } ∧
    (run.Spec.ClusterConfig.Repository.Type_ ≠ "" →
      ∀ fs : List Faults,
        (runPasses marshal SyncBuildStatusInterval fs
          (Reconcile marshal SyncBuildStatusInterval f s).store).all
          (fun o => !o.calls.any Call.isStatusUpdate) = true) := by
  have hcond : run.Status.MetadataRepository ≠ run.Spec.ClusterConfig.Repository.Type_ ∨
      run.Status.MetadataRepository = "" := by
    rcases hstale with h | h
    · exact Or.inr h
    · exact Or.inl h
  have hlater : run.Spec.ClusterConfig.Repository.Type_ ≠ "" →
      ∀ (art : ConfigMap) (fs : List Faults),
      DeepEqual (ConstructCascadingConfigmap marshal run).2.Data art.Data = true →
      (runPasses marshal SyncBuildStatusInterval fs
        { record := some { run with Status :=
            { MetadataRepository := run.Spec.ClusterConfig.Repository.Type_ } }
          artifact := some art }).all
        (fun o => !o.calls.any Call.isStatusUpdate) = true := by
    intro hkind art fs hde
    have h := runPasses_converged marshal SyncBuildStatusInterval fs
      { record := some { run with Status :=
          { MetadataRepository := run.Spec.ClusterConfig.Repository.Type_ } }
        artifact := some art }
      { run with Status := { MetadataRepository := run.Spec.ClusterConfig.Repository.Type_ } }
      art rfl rfl hde rfl hkind
    rw [List.all_eq_true] at h ⊢
    intro o ho
    have := h o ho
    simp only [Bool.and_eq_true] at this
    exact this.1.1
  rcases f with ⟨fr, fa, fc, fu, fs0⟩
  rcases s with ⟨rec, art⟩
  simp only at hr ha
  subst hr ha
  cases fr with
  | some e => simp [Reconcile, Store.getRecord] at hok
  | none =>
    cases fa with
    | some e => simp [Reconcile, Store.getRecord, Store.getArtifact] at hok
    | none =>
      by_cases hde : DeepEqual (ConstructCascadingConfigmap marshal run).2.Data cm.Data = true
      · cases fs0 with
        | some e =>
          simp [Reconcile, Store.getRecord, Store.getArtifact, hde, hcond,
            ConstructCascadingConfigmap_status,
            ConstructCascadingConfigmap_clusterConfig] at hok
        | none =>
          refine ⟨?_, rfl, ?_, ?_⟩
          · simp [Reconcile, Store.getRecord, Store.getArtifact, hde, hcond,
              ConstructCascadingConfigmap_status, ConstructCascadingConfigmap_clusterConfig,
              Call.isStatusUpdate, List.filter]
          · simp [Reconcile, Store.getRecord, Store.getArtifact, hde, hcond,
              ConstructCascadingConfigmap_status, ConstructCascadingConfigmap_clusterConfig,
              Store.statusUpdate, SetMetadataRepository]
          · intro hkind fs
            have h := hlater hkind cm fs hde
            simpa [Reconcile, Store.getRecord, Store.getArtifact, hde, hcond,
              ConstructCascadingConfigmap_status, ConstructCascadingConfigmap_clusterConfig,
              Store.statusUpdate, SetMetadataRepository] using h
      · cases fu with
        | some e =>
          simp [Reconcile, Store.getRecord, Store.getArtifact, hde] at hok
        | none =>
          cases fs0 with
          | some e =>
            simp [Reconcile, Store.getRecord, Store.getArtifact, hde, hcond,
              ConstructCascadingConfigmap_status,
              ConstructCascadingConfigmap_clusterConfig] at hok
          | none =>
            refine ⟨?_, rfl, ?_, ?_⟩
            · simp [Reconcile, Store.getRecord, Store.getArtifact, hde, hcond,
                ConstructCascadingConfigmap_status, ConstructCascadingConfigmap_clusterConfig,
                Call.isStatusUpdate, List.filter]
            · simp [Reconcile, Store.getRecord, Store.getArtifact, hde, hcond,
                ConstructCascadingConfigmap_status, ConstructCascadingConfigmap_clusterConfig,
                Store.statusUpdate, Store.update, SetMetadataRepository]
            · intro hkind fs
              have h := hlater hkind (ConstructCascadingConfigmap marshal run).2 fs
                (DeepEqual_self _)
              simpa [Reconcile, Store.getRecord, Store.getArtifact, hde, hcond,
                ConstructCascadingConfigmap_status, ConstructCascadingConfigmap_clusterConfig,
                Store.statusUpdate, Store.update, SetMetadataRepository] using h

/-- Witness for C11: `sampleProxyConfig` has an empty status and declares
`ZooKeeper`; on the converged sample store one pass without failures issues
the single status update, and two later passes issue none. -/
theorem Reconcile_status_propagation_witness :
    (sampleProxyConfig.Status.MetadataRepository = "" ∨
      sampleProxyConfig.Status.MetadataRepository ≠
        sampleProxyConfig.Spec.ClusterConfig.Repository.Type_) ∧
    (Reconcile sampleMarshal 30 noFaults convergedStore).err = none ∧
    sampleProxyConfig.Spec.ClusterConfig.Repository.Type_ ≠ "" ∧
    ((Reconcile sampleMarshal 30 noFaults convergedStore).calls.filter
      Call.isStatusUpdate).length = 1 ∧
    (Reconcile sampleMarshal 30 noFaults convergedStore).store.record =
      some { sampleProxyConfig with Status := { MetadataRepository := "ZooKeeper" } } ∧
    (runPasses sampleMarshal 30 [noFaults, statusUpdateFails]
        (Reconcile sampleMarshal 30 noFaults convergedStore).store).all
        (fun o => !o.calls.any Call.isStatusUpdate) = true :=
  have h := Reconcile_status_propagation sampleMarshal 30 noFaults convergedStore
    sampleProxyConfig convergedArtifact rfl rfl (Or.inl rfl) (by decide)
  ⟨Or.inl rfl, by decide, by decide, by rw [h.1]; rfl, h.2.2.1,
    h.2.2.2 (by decide) [noFaults, statusUpdateFails]⟩

/-- C12: create branch. When the fetch of the record finds it and the fetch of
the artifact reports not-found, `Reconcile` issues exactly one create, of the
derived artifact, and no artifact update; when the create succeeds it is
followed by exactly one status update, which carries the spec's declared
repository kind whatever the status was before; and when that update
succeeds too the pass returns no error and no requeue, with the artifact
stored and the declared kind as the stored status. -/
theorem Reconcile_create_branch (marshal : ProxyConfigSpec → String)
    (SyncBuildStatusInterval : Int) (f : Faults) (s : Store) (run : ProxyConfig)
    (hr : s.getRecord f = GetResult.found run)
    (ha : s.getArtifact f = GetResult.notFound) :
    (Reconcile marshal SyncBuildStatusInterval f s).calls.filter Call.isCreate =
      [Call.create (ConstructCascadingConfigmap marshal run).2] ∧
    (Reconcile marshal SyncBuildStatusInterval f s).calls.any Call.isUpdate = false ∧
    (f.create = none →
      (Reconcile marshal SyncBuildStatusInterval f s).calls =
        [Call.getRecord, Call.getArtifact,
          Call.create (ConstructCascadingConfigmap marshal run).2,
          Call.statusUpdate (SetMetadataRepository (ConstructCascadingConfigmap marshal run).1
            run.Spec.ClusterConfig.Repository.Type_)] ∧
      (SetMetadataRepository (ConstructCascadingConfigmap marshal run).1
          run.Spec.ClusterConfig.Repository.Type_).Status.MetadataRepository =
        run.Spec.ClusterConfig.Repository.Type_ ∧
      (Reconcile marshal SyncBuildStatusInterval f s).store.artifact =
        some (ConstructCascadingConfigmap marshal run).2) ∧
    (f.create = none → f.statusUpdate = none →
      (Reconcile marshal SyncBuildStatusInterval f s).err = none ∧
      (Reconcile marshal SyncBuildStatusInterval f s).result =
        { Requeue := false, RequeueAfter := 0 } ∧
      (Reconcile marshal SyncBuildStatusInterval f s).store.record =
        s.record.map (fun stored => { stored with Status :=
          { MetadataRepository := run.Spec.ClusterConfig.Repository.Type_ } })) := by
  rcases f with ⟨fr, fa, fc, fu, fs0⟩
  cases fc with
  | some e =>
    simp [Reconcile, hr, ha, Call.isCreate, Call.isUpdate, List.filter]
  | none =>
    cases fs0 with
    | some e =>
      simp [Reconcile, hr, ha, Call.isCreate, Call.isUpdate, List.filter, Store.create,
        SetMetadataRepository, ConstructCascadingConfigmap_clusterConfig]
    | none =>
      simp [Reconcile, hr, ha, Call.isCreate, Call.isUpdate, List.filter, Store.create,
        Store.statusUpdate, SetMetadataRepository, noRequeue,
        ConstructCascadingConfigmap_clusterConfig]

/-- Witness for C12: the sample record without a stored artifact; with no
failing call the pass creates the artifact, updates the status to
`ZooKeeper` and returns without requeue. -/
theorem Reconcile_create_branch_witness :
    noArtifactStore.getRecord noFaults = GetResult.found sampleProxyConfig ∧
    noArtifactStore.getArtifact noFaults = GetResult.notFound ∧
    ((Reconcile sampleMarshal 30 noFaults noArtifactStore).calls.filter Call.isCreate).length
      = 1 ∧
    (Reconcile sampleMarshal 30 noFaults noArtifactStore).calls.any Call.isUpdate = false ∧
    (Reconcile sampleMarshal 30 noFaults noArtifactStore).err = none ∧
    (Reconcile sampleMarshal 30 noFaults noArtifactStore).store.record =
      some { sampleProxyConfig with Status := { MetadataRepository := "ZooKeeper" } } :=
  have h := Reconcile_create_branch sampleMarshal 30 noFaults noArtifactStore
    sampleProxyConfig rfl rfl
  ⟨rfl, rfl, by rw [h.1]; rfl, h.2.1, (h.2.2.2 rfl rfl).1, (h.2.2.2 rfl rfl).2.2⟩

/-- C13: failure reporting. Whatever the store and whichever calls fail, a pass
of `Reconcile` that returns an error returns it with the fixed retry interval,
the error is that of the last call it issued, and no earlier call of the pass
failed; a pass that returns no error issued no failing call and asks for no
requeue. So the first failing call ends the pass, and a failed create is
never followed by a status update. -/
theorem Reconcile_failure_reporting (marshal : ProxyConfigSpec → String)
    (SyncBuildStatusInterval : Int) (f : Faults) (s : Store) :
    (match (Reconcile marshal SyncBuildStatusInterval f s).err with
     | some e =>
       (Reconcile marshal SyncBuildStatusInterval f s).result =
         { Requeue := false, RequeueAfter := SyncBuildStatusInterval } ∧
       (Reconcile marshal SyncBuildStatusInterval f s).calls.getLast?.bind f.failureOf =
         some e ∧
       (Reconcile marshal SyncBuildStatusInterval f s).calls.dropLast.all
         (fun c => (f.failureOf c).isNone) = true
     | none =>
       (Reconcile marshal SyncBuildStatusInterval f s).result =
         { Requeue := false, RequeueAfter := 0 } ∧
       (Reconcile marshal SyncBuildStatusInterval f s).calls.all
         (fun c => (f.failureOf c).isNone) = true) ∧
    ((Reconcile marshal SyncBuildStatusInterval f s).calls.any
        (fun c => c.isCreate && (f.failureOf c).isSome) &&
      (Reconcile marshal SyncBuildStatusInterval f s).calls.any Call.isStatusUpdate) =
      false := by
  rcases f with ⟨fr, fa, fc, fu, fs0⟩
  rcases s with ⟨rec, art⟩
  cases fr with
  | some e =>
    simp [Reconcile, Store.getRecord, Faults.failureOf, requeueAfter, Call.isCreate]
  | none =>
    cases rec with
    | none =>
      simp [Reconcile, Store.getRecord, Faults.failureOf, noRequeue, Call.isCreate]
    | some run =>
      cases fa with
      | some e =>
        simp [Reconcile, Store.getRecord, Store.getArtifact, Faults.failureOf, requeueAfter,
          Call.isCreate]
      | none =>
        cases art with
        | none =>
          cases fc <;> cases fs0 <;>
            simp [Reconcile, Store.getRecord, Store.getArtifact, Faults.failureOf,
              requeueAfter, noRequeue, Call.isCreate, Call.isStatusUpdate]
        | some cm =>
          by_cases hde :
              DeepEqual (ConstructCascadingConfigmap marshal run).2.Data cm.Data = true <;>
          by_cases hst :
              (ConstructCascadingConfigmap marshal run).1.Status.MetadataRepository ≠
                (ConstructCascadingConfigmap marshal run).1.Spec.ClusterConfig.Repository.Type_ ∨
              (ConstructCascadingConfigmap marshal run).1.Status.MetadataRepository = "" <;>
          cases fu <;> cases fs0 <;>
            simp [Reconcile, Store.getRecord, Store.getArtifact, Faults.failureOf,
              requeueAfter, noRequeue, Call.isCreate, Call.isStatusUpdate, hde, hst]

/-- C14: deleted record. When the fetch of the record reports not-found,
`Reconcile` returns no error and the empty result (no requeue), after that
one fetch and no other repository call, and leaves the store as it is. -/
theorem Reconcile_deleted_record (marshal : ProxyConfigSpec → String)
    (SyncBuildStatusInterval : Int) (f : Faults) (s : Store)
    (h : s.getRecord f = GetResult.notFound) :
    (Reconcile marshal SyncBuildStatusInterval f s).err = none ∧
    (Reconcile marshal SyncBuildStatusInterval f s).result =
      { Requeue := false, RequeueAfter := 0 } ∧
    (Reconcile marshal SyncBuildStatusInterval f s).calls = [Call.getRecord] ∧
    (Reconcile marshal SyncBuildStatusInterval f s).store = s := by
  simp [Reconcile, h, noRequeue]

/-- Witness for C14: the record is gone while its artifact is still stored,
and every later call of the pass would fail; the pass stops after the first
fetch. -/
theorem Reconcile_deleted_record_witness :
    deletedRecordStore.getRecord
      { getRecord := none, getArtifact := some "unavailable", create := some "unavailable"
        update := some "unavailable", statusUpdate := some "unavailable" } =
      GetResult.notFound ∧
    (Reconcile sampleMarshal 30
      { getRecord := none, getArtifact := some "unavailable", create := some "unavailable"
        update := some "unavailable", statusUpdate := some "unavailable" }
      deletedRecordStore).calls = [Call.getRecord] ∧
    (Reconcile sampleMarshal 30
      { getRecord := none, getArtifact := some "unavailable", create := some "unavailable"
        update := some "unavailable", statusUpdate := some "unavailable" }
      deletedRecordStore).err = none :=
  have h := Reconcile_deleted_record sampleMarshal 30
    { getRecord := none, getArtifact := some "unavailable", create := some "unavailable"
      update := some "unavailable", statusUpdate := some "unavailable" }
    deletedRecordStore rfl
  ⟨rfl, h.2.2.1, h.1⟩

theorem lookup_eq_none_of_not_key (a : List (String × String)) (k : String)
    (h : k ∉ a.map Prod.fst) : a.lookup k = none := by
  rw [List.lookup_eq_none_iff]
  intro q hq
  simp only [bne_iff_ne, ne_eq]
  intro hk
  exact h (List.mem_map.mpr ⟨q, hq, hk.symm⟩)

theorem lookup_eq_of_DeepEqual (a b : List (String × String))
    (h : DeepEqual a b = true) (k : String) : a.lookup k = b.lookup k := by
  unfold DeepEqual at h
  rw [List.all_eq_true] at h
  by_cases hk : k ∈ a.map Prod.fst ++ b.map Prod.fst
  · exact eq_of_beq (h k hk)
  · rw [List.mem_append, not_or] at hk
    rw [lookup_eq_none_of_not_key a k hk.1, lookup_eq_none_of_not_key b k hk.2]

theorem DeepEqual_iff (a b : List (String × String)) :
    DeepEqual a b = true ↔ ∀ k, a.lookup k = b.lookup k :=
  ⟨lookup_eq_of_DeepEqual a b, DeepEqual_of_lookup_eq a b⟩

theorem DeepEqual_single (k y t : String) :
    DeepEqual [(k, y)] [(k, t)] = true ↔ t = y := by
  rw [DeepEqual_iff]
  constructor
  · intro h
    have := h k
    simp only [List.lookup_cons_self, Option.some.injEq] at this
    exact this.symm
  · intro h _
    rw [h]

theorem Reconcile_update_iff (marshal : ProxyConfigSpec → String)
    (SyncBuildStatusInterval : Int) (f : Faults) (s : Store) (run : ProxyConfig)
    (cm : ConfigMap)
    (hr : s.getRecord f = GetResult.found run)
    (ha : s.getArtifact f = GetResult.found cm) :
    (Reconcile marshal SyncBuildStatusInterval f s).calls.any Call.isUpdate =
      !DeepEqual (ConstructCascadingConfigmap marshal run).2.Data cm.Data := by
  rcases f with ⟨fr, fa, fc, fu, fs0⟩
  by_cases hde : DeepEqual (ConstructCascadingConfigmap marshal run).2.Data cm.Data = true <;>
  by_cases hst :
      (ConstructCascadingConfigmap marshal run).1.Status.MetadataRepository ≠
        (ConstructCascadingConfigmap marshal run).1.Spec.ClusterConfig.Repository.Type_ ∨
      (ConstructCascadingConfigmap marshal run).1.Status.MetadataRepository = "" <;>
  cases fu <;> cases fs0 <;>
    simp [Reconcile, hr, ha, Call.isUpdate, hde, hst]

/-- C15, as stated, fails: the stored text of `reformattedArtifact` differs from
the derived text only by one more line break, and both texts decode to the
same lines, yet `Reconcile` issues an update, because the comparison is on
the data mappings, whose values are the texts themselves. -/
theorem Reconcile_updates_on_reformatted_text :
    reformattedStore.record = some sampleProxyConfig ∧
    reformattedStore.artifact = some reformattedArtifact ∧
    reformattedArtifact.Data = [("server.yaml", "root@%:pw\n\n")] ∧
    (ConstructCascadingConfigmap sampleMarshal sampleProxyConfig).2.Data =
      [("server.yaml", "root@%:pw\n")] ∧
    sampleDecode "root@%:pw\n\n" = sampleDecode "root@%:pw\n" ∧
    (Reconcile sampleMarshal 30 noFaults reformattedStore).calls.any Call.isUpdate = true ∧
    (Reconcile sampleMarshal 30 noFaults reformattedStore).calls.any Call.isUpdate ≠ false := by
  decide

/-- C15, amended: the update decision of `Reconcile` compares the data mappings
of the derived and the stored artifact, key by key and each text verbatim,
without decoding the text. When both fetches find their object, an update
is issued exactly when some key is bound differently in the two mappings;
for a stored artifact whose only entry is `server.yaml`, no update is
issued exactly when the stored text equals the derived text. -/
theorem Reconcile_update_decision (marshal : ProxyConfigSpec → String)
    (SyncBuildStatusInterval : Int) (f : Faults) (s : Store) (run : ProxyConfig)
    (cm : ConfigMap)
    (hr : s.getRecord f = GetResult.found run)
    (ha : s.getArtifact f = GetResult.found cm) :
    ((Reconcile marshal SyncBuildStatusInterval f s).calls.any Call.isUpdate = false ↔
      ∀ k, (ConstructCascadingConfigmap marshal run).2.Data.lookup k = cm.Data.lookup k) ∧
    (∀ t : String, cm.Data = [("server.yaml", t)] →
      ((Reconcile marshal SyncBuildStatusInterval f s).calls.any Call.isUpdate = false ↔
        t = marshal (ConstructCascadingConfigmap marshal run).1.Spec)) := by
  have h := Reconcile_update_iff marshal SyncBuildStatusInterval f s run cm hr ha
  constructor
  · rw [h, ← DeepEqual_iff]
    simp
  · intro t ht
    rw [h, ht]
    have hd : (ConstructCascadingConfigmap marshal run).2.Data =
        [("server.yaml", marshal (ConstructCascadingConfigmap marshal run).1.Spec)] := rfl
    rw [hd, ← DeepEqual_single "server.yaml"]
    simp

/-- Witness for C15: on the converged sample store the stored text equals the
derived text and no update is issued. -/
theorem Reconcile_update_decision_witness :
    convergedStore.getRecord noFaults = GetResult.found sampleProxyConfig ∧
    convergedStore.getArtifact noFaults = GetResult.found convergedArtifact ∧
    convergedArtifact.Data = [("server.yaml", "root@%:pw\n")] ∧
    ((Reconcile sampleMarshal 30 noFaults convergedStore).calls.any Call.isUpdate = false ↔
      "root@%:pw\n" =
        sampleMarshal (ConstructCascadingConfigmap sampleMarshal sampleProxyConfig).1.Spec) :=
  ⟨rfl, rfl, rfl,
    (Reconcile_update_decision sampleMarshal 30 noFaults convergedStore sampleProxyConfig
      convergedArtifact rfl rfl).2 "root@%:pw\n" rfl⟩

theorem Reconcile_success_state (marshal : ProxyConfigSpec → String)
    (SyncBuildStatusInterval : Int) (f : Faults) (s : Store) (run : ProxyConfig)
    (hr : s.record = some run)
    (hok : (Reconcile marshal SyncBuildStatusInterval f s).err = none) :
    (∃ cm, (Reconcile marshal SyncBuildStatusInterval f s).store.artifact = some cm ∧
      DeepEqual (ConstructCascadingConfigmap marshal run).2.Data cm.Data = true) ∧
    (Reconcile marshal SyncBuildStatusInterval f s).store.record =
      some { run with Status :=
        { MetadataRepository := run.Spec.ClusterConfig.Repository.Type_ } } := by
  rcases f with ⟨fr, fa, fc, fu, fs0⟩
  rcases s with ⟨rec, art⟩
  simp only at hr
  subst hr
  cases fr with
  | some e => simp [Reconcile, Store.getRecord] at hok
  | none =>
    cases fa with
    | some e => simp [Reconcile, Store.getRecord, Store.getArtifact] at hok
    | none =>
      cases art with
      | none =>
        cases fc with
        | some e => simp [Reconcile, Store.getRecord, Store.getArtifact] at hok
        | none =>
          cases fs0 with
          | some e => simp [Reconcile, Store.getRecord, Store.getArtifact] at hok
          | none =>
            simp [Reconcile, Store.getRecord, Store.getArtifact, Store.create,
              Store.statusUpdate, SetMetadataRepository, DeepEqual_self,
              ConstructCascadingConfigmap_clusterConfig]
      | some cm =>
        by_cases hde :
            DeepEqual (ConstructCascadingConfigmap marshal run).2.Data cm.Data = true
        · by_cases hst : run.Status.MetadataRepository ≠
              run.Spec.ClusterConfig.Repository.Type_ ∨ run.Status.MetadataRepository = ""
          · cases fs0 with
            | some e =>
              simp [Reconcile, Store.getRecord, Store.getArtifact, hde, hst,
                ConstructCascadingConfigmap_status,
                ConstructCascadingConfigmap_clusterConfig] at hok
            | none =>
              simp [Reconcile, Store.getRecord, Store.getArtifact, hde, hst,
                ConstructCascadingConfigmap_status, ConstructCascadingConfigmap_clusterConfig,
                Store.statusUpdate, SetMetadataRepository]
          · have heq : run.Status.MetadataRepository =
                run.Spec.ClusterConfig.Repository.Type_ := by
              by_contra hne
              exact hst (Or.inl hne)
            have hrun : ({ run with Status :=
                { MetadataRepository := run.Spec.ClusterConfig.Repository.Type_ } } :
                  ProxyConfig) = run := by
              rcases run with ⟨m, sp, ⟨st⟩⟩
              simp only at heq
              subst heq
              rfl
            simp [Reconcile, Store.getRecord, Store.getArtifact, hde, hst,
              ConstructCascadingConfigmap_status, ConstructCascadingConfigmap_clusterConfig,
              hrun]
        · cases fu with
          | some e => simp [Reconcile, Store.getRecord, Store.getArtifact, hde] at hok
          | none =>
            by_cases hst : run.Status.MetadataRepository ≠
                run.Spec.ClusterConfig.Repository.Type_ ∨ run.Status.MetadataRepository = ""
            · cases fs0 with
              | some e =>
                simp [Reconcile, Store.getRecord, Store.getArtifact, hde, hst,
                  ConstructCascadingConfigmap_status,
                  ConstructCascadingConfigmap_clusterConfig] at hok
              | none =>
                simp [Reconcile, Store.getRecord, Store.getArtifact, hde, hst,
                  ConstructCascadingConfigmap_status,
                  ConstructCascadingConfigmap_clusterConfig,
                  Store.statusUpdate, Store.update, SetMetadataRepository, DeepEqual_self]
            · have heq : run.Status.MetadataRepository =
                  run.Spec.ClusterConfig.Repository.Type_ := by
                by_contra hne
                exact hst (Or.inl hne)
              have hrun : ({ run with Status :=
                  { MetadataRepository := run.Spec.ClusterConfig.Repository.Type_ } } :
                    ProxyConfig) = run := by
                rcases run with ⟨m, sp, ⟨st⟩⟩
                simp only at heq
                subst heq
                rfl
              simp [Reconcile, Store.getRecord, Store.getArtifact, hde, hst,
                ConstructCascadingConfigmap_status, ConstructCascadingConfigmap_clusterConfig,
                Store.update, DeepEqual_self, hrun]

/-- C16, as stated, fails: the stored status of `syncedConfig` already equals
the declared kind while its artifact is missing. The first pass creates the
artifact and fails on the status update; the retried pass issues no create
and no update and succeeds, but it issues no status update either. -/
theorem Reconcile_retry_without_status_update :
    syncedNoArtifactStore.record = some syncedConfig ∧
    syncedNoArtifactStore.artifact = none ∧
    (Reconcile sampleMarshal 30 statusUpdateFails syncedNoArtifactStore).calls.any
      Call.isCreate = true ∧
    (Reconcile sampleMarshal 30 statusUpdateFails syncedNoArtifactStore).err =
      some "conflict" ∧
    (Reconcile sampleMarshal 30 noFaults
      (Reconcile sampleMarshal 30 statusUpdateFails syncedNoArtifactStore).store).err = none ∧
    (Reconcile sampleMarshal 30 noFaults
      (Reconcile sampleMarshal 30 statusUpdateFails syncedNoArtifactStore).store).calls =
      [Call.getRecord, Call.getArtifact] ∧
    (Reconcile sampleMarshal 30 noFaults
      (Reconcile sampleMarshal 30 statusUpdateFails syncedNoArtifactStore).store).calls.any
      Call.isStatusUpdate = false := by
  decide

/-- C16, amended: retry safety. If a pass found the record, created the
artifact and then failed on the status update, the store holds the derived
artifact and the unchanged record, and a retried pass whose fetches and
status update do not fail issues no create and no artifact update, issues
the status update carrying the spec's declared kind when the stored status
is empty or differs from that kind, and no status update otherwise (the
stored status is not empty and equals that kind), and returns no error and
no requeue with the declared kind as the stored status. More generally, after any pass on a
stored record that returns no error, the stored artifact's data equals the
derived data as a mapping and the stored status equals the declared kind. -/
theorem Reconcile_retry_safe (marshal : ProxyConfigSpec → String)
    (SyncBuildStatusInterval : Int) (f1 f2 : Faults) (s : Store) (run : ProxyConfig)
    (e : String)
    (hr : s.getRecord f1 = GetResult.found run)
    (ha : s.getArtifact f1 = GetResult.notFound)
    (hc : f1.create = none) (hs : f1.statusUpdate = some e)
    (h2r : f2.getRecord = none) (h2a : f2.getArtifact = none)
    (h2s : f2.statusUpdate = none) :
    (Reconcile marshal SyncBuildStatusInterval f1 s).err = some e ∧
    (Reconcile marshal SyncBuildStatusInterval f1 s).store =
      { record := some run, artifact := some (ConstructCascadingConfigmap marshal run).2 } ∧
    (Reconcile marshal SyncBuildStatusInterval f2
      (Reconcile marshal SyncBuildStatusInterval f1 s).store).calls.any
        Call.isArtifactWrite = false ∧
    (Reconcile marshal SyncBuildStatusInterval f2
      (Reconcile marshal SyncBuildStatusInterval f1 s).store).calls.filter
        Call.isStatusUpdate =
      (if run.Status.MetadataRepository ≠ run.Spec.ClusterConfig.Repository.Type_ ∨
          run.Status.MetadataRepository = "" then
        [Call.statusUpdate (SetMetadataRepository (ConstructCascadingConfigmap marshal run).1
          run.Spec.ClusterConfig.Repository.Type_)]
       else []) ∧
    (Reconcile marshal SyncBuildStatusInterval f2
      (Reconcile marshal SyncBuildStatusInterval f1 s).store).err = none ∧
    (Reconcile marshal SyncBuildStatusInterval f2
      (Reconcile marshal SyncBuildStatusInterval f1 s).store).result =
      { Requeue := false, RequeueAfter := 0 } ∧
    (Reconcile marshal SyncBuildStatusInterval f2
      (Reconcile marshal SyncBuildStatusInterval f1 s).store).store =
      { record := some { run with Status :=
          { MetadataRepository := run.Spec.ClusterConfig.Repository.Type_ } }
        artifact := some (ConstructCascadingConfigmap marshal run).2 } ∧
    (∀ (f : Faults) (s0 : Store) (run0 : ProxyConfig), s0.record = some run0 →
      (Reconcile marshal SyncBuildStatusInterval f s0).err = none →
      (∃ cm, (Reconcile marshal SyncBuildStatusInterval f s0).store.artifact = some cm ∧
        ∀ k, (ConstructCascadingConfigmap marshal run0).2.Data.lookup k = cm.Data.lookup k) ∧
      (Reconcile marshal SyncBuildStatusInterval f s0).store.record =
        some { run0 with Status :=
          { MetadataRepository := run0.Spec.ClusterConfig.Repository.Type_ } }) := by
  have hs1 : (Reconcile marshal SyncBuildStatusInterval f1 s).store =
      { record := some run, artifact := some (ConstructCascadingConfigmap marshal run).2 } ∧
      (Reconcile marshal SyncBuildStatusInterval f1 s).err = some e := by
    rcases f1 with ⟨fr, fa, fc, fu, fs0⟩
    rcases s with ⟨rec, art⟩
    simp only at hc hs
    subst hc hs
    cases fr with
    | some e0 => simp [Store.getRecord] at hr
    | none =>
      cases rec with
      | none => simp [Store.getRecord] at hr
      | some run1 =>
        simp only [Store.getRecord, GetResult.found.injEq] at hr
        subst hr
        cases fa with
        | some e0 => simp [Store.getArtifact] at ha
        | none =>
          cases art with
          | some cm => simp [Store.getArtifact] at ha
          | none =>
            simp [Reconcile, Store.getRecord, Store.getArtifact, Store.create]
  have hgen : ∀ (f : Faults) (s0 : Store) (run0 : ProxyConfig), s0.record = some run0 →
      (Reconcile marshal SyncBuildStatusInterval f s0).err = none →
      (∃ cm, (Reconcile marshal SyncBuildStatusInterval f s0).store.artifact = some cm ∧
        ∀ k, (ConstructCascadingConfigmap marshal run0).2.Data.lookup k = cm.Data.lookup k) ∧
      (Reconcile marshal SyncBuildStatusInterval f s0).store.record =
        some { run0 with Status :=
          { MetadataRepository := run0.Spec.ClusterConfig.Repository.Type_ } } := by
    intro f s0 run0 h0 hok
    obtain ⟨⟨cm, hcm, hde⟩, hrec⟩ :=
      Reconcile_success_state marshal SyncBuildStatusInterval f s0 run0 h0 hok
    exact ⟨⟨cm, hcm, lookup_eq_of_DeepEqual _ _ hde⟩, hrec⟩
  refine ⟨hs1.2, hs1.1, ?_, ?_, ?_, ?_, ?_, hgen⟩ <;> rw [hs1.1] <;>
    rcases f2 with ⟨fr, fa, fc, fu, fs0⟩ <;> simp only at h2r h2a h2s <;>
    subst h2r h2a h2s <;>
    by_cases hst : run.Status.MetadataRepository ≠
      run.Spec.ClusterConfig.Repository.Type_ ∨ run.Status.MetadataRepository = ""
  all_goals first
    | (simp [Reconcile, Store.getRecord, Store.getArtifact, DeepEqual_self, hst,
        ConstructCascadingConfigmap_status, ConstructCascadingConfigmap_clusterConfig,
        Store.statusUpdate, SetMetadataRepository, Call.isArtifactWrite,
        Call.isStatusUpdate, List.filter, noRequeue]
       done)
    | (have heq : run.Status.MetadataRepository =
          run.Spec.ClusterConfig.Repository.Type_ := by
        by_contra hne
        exact hst (Or.inl hne)
       have hrun : ({ run with Status :=
          { MetadataRepository := run.Spec.ClusterConfig.Repository.Type_ } } :
            ProxyConfig) = run := by
        rcases run with ⟨m, sp, ⟨st⟩⟩
        simp only at heq
        subst heq
        rfl
       simp [Reconcile, Store.getRecord, Store.getArtifact, DeepEqual_self, hst,
        ConstructCascadingConfigmap_status, ConstructCascadingConfigmap_clusterConfig,
        hrun])

/-- Witness for C16: the sample record with an empty status and no stored
artifact; the first pass creates the artifact and fails on the status
update, the retry issues the status update only and succeeds. -/
theorem Reconcile_retry_safe_witness :
    noArtifactStore.getRecord statusUpdateFails = GetResult.found sampleProxyConfig ∧
    noArtifactStore.getArtifact statusUpdateFails = GetResult.notFound ∧
    (Reconcile sampleMarshal 30 statusUpdateFails noArtifactStore).err = some "conflict" ∧
    (Reconcile sampleMarshal 30 noFaults
      (Reconcile sampleMarshal 30 statusUpdateFails noArtifactStore).store).calls.any
        Call.isArtifactWrite = false ∧
    (Reconcile sampleMarshal 30 noFaults
      (Reconcile sampleMarshal 30 statusUpdateFails noArtifactStore).store).err = none ∧
    (Reconcile sampleMarshal 30 noFaults
      (Reconcile sampleMarshal 30 statusUpdateFails noArtifactStore).store).store.record =
      some { sampleProxyConfig with Status := { MetadataRepository := "ZooKeeper" } } :=
  have h := Reconcile_retry_safe sampleMarshal 30 statusUpdateFails noFaults noArtifactStore
    sampleProxyConfig "conflict" rfl rfl rfl rfl rfl rfl rfl
  ⟨rfl, rfl, h.1, h.2.2.1, h.2.2.2.2.1, by rw [h.2.2.2.2.2.2.1]; rfl⟩

/-! ## Updating a stored deployment -/

theorem UpdateDeployment_shape (esc : String → String) (p2 : Proxy)
    (om : ObjectMeta) (strat : DeploymentStrategy) (reps : Option Int)
    (sel : Option LabelSelector) (tm : ObjectMeta) (ics : List Container)
    (c : Container) (cs : List Container) (v0 : Volume) (vs : List Volume)
    (e : EnvVar) (es : List EnvVar) (pt : ContainerPort) (pts : List ContainerPort)
    (src : ConfigMapVolumeSource)
    (r : ResourceRequirements) (m : MySQLDriver)
    (hE : c.Env = e :: es) (hP : c.Ports = pt :: pts) (hV : v0.ConfigMap = some src)
    (hres : p2.Spec.Resources = some r)
    (hm : p2.Spec.MySQLDriver = some m) :
    UpdateDeployment esc p2
      { ObjectMeta := om
        Spec :=
          { Strategy := strat, Replicas := reps, Selector := sel
            Template :=
              { ObjectMeta := tm
                Spec := { InitContainers := ics, Containers := c :: cs, Volumes := v0 :: vs } } } } =
    some
      { ObjectMeta := om
        Spec :=
          { Strategy := strat, Replicas := some p2.Spec.Replicas, Selector := sel
            Template :=
              { ObjectMeta := tm
                Spec :=
                  { InitContainers :=
                      if m.Version ≠ "" then [initContainer esc m] else ics
                    Containers :=
                      { c with
                        Image := "apache/shardingsphere-proxy:" ++ p2.Spec.Version
                        Env := { e with Value := FormatInt p2.Spec.Port } :: es
                        Ports := { pt with ContainerPort := p2.Spec.Port } :: pts
                        VolumeMounts :=
                          if m.Version ≠ "" ∧ ics = [] then
                            c.VolumeMounts ++
                              [{ Name := "mysql-connect-jar"
                                 MountPath := "/opt/shardingsphere-proxy/ext-lib" }]
                          else c.VolumeMounts
                        Resources := r
                        LivenessProbe := p2.Spec.LivenessProbe
                        ReadinessProbe := p2.Spec.ReadinessProbe
                        StartupProbe := p2.Spec.StartupProbe } :: cs
                    Volumes :=
                      if m.Version ≠ "" ∧ ics = [] then
                        ({ v0 with ConfigMap := some { src with Name := p2.Spec.ProxyConfigName } }
                          :: vs) ++
                          [{ Name := "mysql-connect-jar", ConfigMap := none
                             EmptyDir := some { Medium := "" } }]
                      else
                        { v0 with ConfigMap := some { src with Name := p2.Spec.ProxyConfigName } }
                          :: vs } } } } := by
  by_cases hv : m.Version = ""
  · simp [UpdateDeployment, Deployment.modifyMain, Deployment.pod, Deployment.setPod, hE, hP,
      hV, hres, hm, hv]
  · cases ics with
    | nil =>
      simp [UpdateDeployment, updateInitContainer, addInitContainer, Deployment.modifyMain,
        Deployment.pod, Deployment.setPod, hE, hP, hV, hres, hm, hv]
    | cons ic ics =>
      simp [UpdateDeployment, updateInitContainer, addInitContainer, Deployment.modifyMain,
        Deployment.pod, Deployment.setPod, hE, hP, hV, hres, hm, hv]

theorem ConstructCascadingDeployment_shape (esc : String → String) (p : Proxy) :
    ConstructCascadingDeployment esc p = some
      { ObjectMeta :=
          { Name := p.Meta.Name, Namespace := p.Meta.Namespace, Labels := []
            OwnerReferences := [NewControllerRef p.Meta] }
        Spec :=
          { Strategy := { Type_ := "Recreate" }
            Replicas := some p.Spec.Replicas
            Selector := some { MatchLabels := [("apps", p.Meta.Name)] }
            Template :=
              { ObjectMeta :=
                  { Name := "", Namespace := "", Labels := [("apps", p.Meta.Name)]
                    OwnerReferences := [] }
                Spec :=
                  { InitContainers := p.Spec.MySQLDriver.toList.map (initContainer esc)
                    Containers :=
                      [{ Name := "proxy"
                         Image := "apache/shardingsphere-proxy:" ++ p.Spec.Version
                         ImagePullPolicy := "IfNotPresent"
                         Command := []
                         Ports := [{ ContainerPort := p.Spec.Port }]
                         Env := [{ Name := "PORT", Value := FormatInt p.Spec.Port }]
                         VolumeMounts :=
                           { Name := "config", MountPath := "/opt/shardingsphere-proxy/conf" } ::
                             p.Spec.MySQLDriver.toList.map (fun _ =>
                               { Name := "mysql-connect-jar"
                                 MountPath := "/opt/shardingsphere-proxy/ext-lib" })
                         Resources := p.Spec.Resources.getD
                           { Limits := []
                             Requests := [("cpu", { Literal := "0.2" }),
                               ("memory", { Literal := "1.6Gi" })] }
                         LivenessProbe := some (p.Spec.LivenessProbe.getD (tcpProbe p.Spec.Port 10 0))
                         ReadinessProbe :=
                           some (p.Spec.ReadinessProbe.getD (tcpProbe p.Spec.Port 10 0))
                         StartupProbe := some (p.Spec.StartupProbe.getD (tcpProbe p.Spec.Port 5 12)) }]
                    Volumes :=
                      { Name := "config", ConfigMap := some { Name := p.Spec.ProxyConfigName }
                        EmptyDir := none } ::
                        p.Spec.MySQLDriver.toList.map (fun _ =>
                          { Name := "mysql-connect-jar", ConfigMap := none
                            EmptyDir := some { Medium := "" } }) } } } } := by
  rcases p with ⟨m, ⟨v, st, rep, pcn, port, drv, res, lp, rp, sp⟩⟩
  cases drv <;> cases res <;> cases lp <;> cases rp <;> cases sp <;> rfl

/-- C17: update agrees with fresh construction. For Proxy records `p` and `p2`
with the same identity, where `p2` carries a resource override, all three
probe overrides and a driver descriptor with a non-empty version,
`UpdateDeployment` for `p2` on the deployment built from `p` returns exactly
the deployment built from `p2`, whatever optional fields `p` has. -/
theorem UpdateDeployment_agrees_with_construction (esc : String → String) (p p2 : Proxy)
    (r : ResourceRequirements) (lp rp sp : Probe) (m : MySQLDriver)
    (hid : p.Meta = p2.Meta)
    (hres : p2.Spec.Resources = some r)
    (hlp : p2.Spec.LivenessProbe = some lp)
    (hrp : p2.Spec.ReadinessProbe = some rp)
    (hsp : p2.Spec.StartupProbe = some sp)
    (hm : p2.Spec.MySQLDriver = some m) (hv : m.Version ≠ "") :
    ∃ dp dp2, ConstructCascadingDeployment esc p = some dp ∧
      ConstructCascadingDeployment esc p2 = some dp2 ∧
      UpdateDeployment esc p2 dp = some dp2 := by
  rw [ConstructCascadingDeployment_shape esc p, ConstructCascadingDeployment_shape esc p2]
  refine ⟨_, _, rfl, rfl, ?_⟩
  refine (UpdateDeployment_shape esc p2 _ _ _ _ _ _ _ _ _ _ _ _ _ _ _ r m
    rfl rfl rfl hres hm).trans ?_
  rcases p with ⟨m1, ⟨v, st, rep, pcn, port, drv, res, l1, r1, s1⟩⟩
  rcases p2 with ⟨m2, ⟨v2, st2, rep2, pcn2, port2, drv2, res2, l2, r2, s2⟩⟩
  simp only at hid hres hlp hrp hsp hm
  subst hid hres hlp hrp hsp hm
  cases drv <;> simp [hv]

/-- Witness for C17: the deployment built from `sampleProxy`, which has no
driver and no overrides, updated for `overrideProxy`, is the deployment
built from `overrideProxy`. -/
theorem UpdateDeployment_agrees_with_construction_witness :
    sampleProxy.Meta = overrideProxy.Meta ∧
    overrideProxy.Spec.MySQLDriver = some { Version := "8.0.30" } ∧
    ∃ dp dp2, ConstructCascadingDeployment (fun v => v) sampleProxy = some dp ∧
      ConstructCascadingDeployment (fun v => v) overrideProxy = some dp2 ∧
      UpdateDeployment (fun v => v) overrideProxy dp = some dp2 :=
  ⟨rfl, rfl,
    UpdateDeployment_agrees_with_construction (fun v => v) sampleProxy overrideProxy
      { Limits := [("cpu", { Literal := "2" })], Requests := [("cpu", { Literal := "1" })] }
      (tcpProbe 3308 20 3) (tcpProbe 3308 20 3) (tcpProbe 3308 10 6) { Version := "8.0.30" }
      rfl rfl rfl rfl rfl rfl (by decide)⟩

/-- C18 fails on the code: for `sampleProxy`, which has no driver descriptor
and no overrides, `UpdateDeployment` on the freshly built deployment does not
complete (it dereferences the absent driver descriptor); and for
`driverProxy`, which has a driver and a resource override but no probe
overrides, it completes but clears the three default probes, so the
deployment is no longer the one that was built. -/
theorem UpdateDeployment_fresh_deployment_diverges :
    sampleProxy.Spec.MySQLDriver = none ∧
    (∃ dp, ConstructCascadingDeployment (fun v => v) sampleProxy = some dp ∧
      UpdateDeployment (fun v => v) sampleProxy dp = none) ∧
    (∃ dp dp1, ConstructCascadingDeployment (fun v => v) driverProxy = some dp ∧
      UpdateDeployment (fun v => v) driverProxy dp = some dp1 ∧
      dp.pod.Containers.map Container.LivenessProbe = [some (tcpProbe 3307 10 0)] ∧
      dp1.pod.Containers.map Container.LivenessProbe = [none] ∧
      dp1.pod.Containers.map Container.ReadinessProbe = [none] ∧
      dp1.pod.Containers.map Container.StartupProbe = [none] ∧
      dp1 ≠ dp) := by
  refine ⟨rfl, ⟨_, rfl, rfl⟩, ⟨_, _, rfl, rfl, rfl, rfl, rfl, rfl, ?_⟩⟩
  intro h
  have h1 : ([none] : List (Option Probe)) = [some (tcpProbe 3307 10 0)] :=
    congrArg (fun d => d.pod.Containers.map Container.LivenessProbe) h
  exact absurd h1 (by decide)

theorem stdLayout_volumesWellFormed (dp : Deployment) (h : stdLayout dp) :
    volumesWellFormed dp := by
  obtain ⟨c, hC, _, _, _, hcase⟩ := h
  rcases hcase with ⟨hi, hmn, hvn⟩ | ⟨_, hall, hmn, hvn⟩
  · refine ⟨?_, ?_, ?_, ?_⟩
    · intro c1 hc1 vm hvm
      rw [hC, List.mem_singleton] at hc1
      subst hc1
      have : vm.Name ∈ c1.VolumeMounts.map VolumeMount.Name := List.mem_map_of_mem _ hvm
      rw [hmn] at this
      rw [hvn]
      exact this
    · intro c1 hc1
      rw [hi] at hc1
      exact absurd hc1 (List.not_mem_nil _)
    · rw [hvn]
      decide
    · intro c1 hc1
      rw [hC, List.mem_singleton] at hc1
      subst hc1
      rw [hmn]
      decide
  · refine ⟨?_, ?_, ?_, ?_⟩
    · intro c1 hc1 vm hvm
      rw [hC, List.mem_singleton] at hc1
      subst hc1
      have : vm.Name ∈ c1.VolumeMounts.map VolumeMount.Name := List.mem_map_of_mem _ hvm
      rw [hmn] at this
      rw [hvn]
      exact this
    · intro c1 hc1 vm hvm
      have : vm.Name ∈ c1.VolumeMounts.map VolumeMount.Name := List.mem_map_of_mem _ hvm
      rw [hall c1 hc1] at this
      rw [hvn]
      exact List.mem_cons_of_mem _ this
    · rw [hvn]
      decide
    · intro c1 hc1
      rw [hC, List.mem_singleton] at hc1
      subst hc1
      rw [hmn]
      decide

theorem ConstructCascadingDeployment_stdLayout (esc : String → String) (p : Proxy) :
    ∃ dp, ConstructCascadingDeployment esc p = some dp ∧ stdLayout dp := by
  rw [ConstructCascadingDeployment_shape esc p]
  refine ⟨_, rfl, ?_⟩
  rcases p with ⟨m1, ⟨v, st, rep, pcn, port, drv, res, l1, r1, s1⟩⟩
  cases drv with
  | none =>
    exact ⟨_, rfl, by simp, by simp, ⟨_, _, _, rfl, rfl⟩, Or.inl ⟨rfl, rfl, rfl⟩⟩
  | some m =>
    refine ⟨_, rfl, by simp, by simp, ⟨_, _, _, rfl, rfl⟩, Or.inr ⟨?_, ?_, rfl, rfl⟩⟩
    · simp [Deployment.pod]
    · intro ic hic
      simp [Deployment.pod] at hic
      subst hic
      rfl

theorem UpdateDeployment_stdLayout (esc : String → String) (p : Proxy) (dp : Deployment)
    (m : MySQLDriver) (r : ResourceRequirements)
    (hm : p.Spec.MySQLDriver = some m) (hres : p.Spec.Resources = some r)
    (h : stdLayout dp) :
    ∃ dp1, UpdateDeployment esc p dp = some dp1 ∧ stdLayout dp1 := by
  obtain ⟨c, hC, hE, hP, ⟨v0, vs, src, hV, hsrc⟩, hcase⟩ := h
  rcases dp with ⟨om, ⟨strat, reps, sel, ⟨tm, ⟨ics, cs, vols⟩⟩⟩⟩
  simp only [Deployment.pod] at hC hV hcase
  subst hC hV
  obtain ⟨e, es, hEnv⟩ := List.exists_cons_of_ne_nil hE
  obtain ⟨pt, pts, hPorts⟩ := List.exists_cons_of_ne_nil hP
  rw [UpdateDeployment_shape esc p om strat reps sel tm ics c [] v0 vs e es pt pts src r m
    hEnv hPorts hsrc hres hm]
  refine ⟨_, rfl, ?_⟩
  by_cases hv : m.Version = "" <;> rcases hcase with ⟨hi, hmn, hvn⟩ | ⟨hi, hall, hmn, hvn⟩
  · subst hi
    refine ⟨_, rfl, by simp, by simp, ⟨_, _, _, by simp [Deployment.pod, hv]; exact ⟨rfl, rfl⟩, rfl⟩, Or.inl ?_⟩
    simp [Deployment.pod, hv, hmn] 
    simpa using hvn
  · refine ⟨_, rfl, by simp, by simp,
      ⟨_, _, _, by simp [Deployment.pod, hv]; exact ⟨rfl, rfl⟩, rfl⟩, Or.inr ?_⟩
    simp only [Deployment.pod] at hi hall hmn hvn ⊢
    refine ⟨by simpa [hv] using hi, by simpa [hv] using hall, by simpa [hv] using hmn, ?_⟩
    simpa [hv] using hvn
  · subst hi
    refine ⟨_, rfl, by simp, by simp,
      ⟨_, _, _, by simp [Deployment.pod, hv]; exact ⟨rfl, rfl⟩, rfl⟩, Or.inr ?_⟩
    simp only [Deployment.pod] at hmn hvn ⊢
    refine ⟨by simp [hv], by simp [hv, initContainer], by simp [hv, hmn], ?_⟩
    simp [hv]
    simpa using hvn
  · refine ⟨_, rfl, by simp, by simp,
      ⟨_, _, _, by simp [Deployment.pod, hv, hi]; exact ⟨rfl, rfl⟩, rfl⟩, Or.inr ?_⟩
    simp only [Deployment.pod] at hi hall hmn hvn ⊢
    refine ⟨by simp [hv], by simp [hv, initContainer], by simpa [hv, hi] using hmn, ?_⟩
    simpa [hv, hi] using hvn

theorem updateAll_stdLayout (esc : String → String) (ps : List Proxy) (dp : Deployment)
    (hps : ps.all (fun p => p.Spec.MySQLDriver.isSome && p.Spec.Resources.isSome) = true)
    (h : stdLayout dp) :
    ∃ dp1, updateAll esc ps dp = some dp1 ∧ stdLayout dp1 := by
  induction ps generalizing dp with
  | nil => exact ⟨dp, rfl, h⟩
  | cons p ps ih =>
    simp only [List.all_cons, Bool.and_eq_true] at hps
    obtain ⟨⟨hm, hres⟩, hrest⟩ := hps
    obtain ⟨m, hm1⟩ := Option.isSome_iff_exists.mp hm
    obtain ⟨r, hr1⟩ := Option.isSome_iff_exists.mp hres
    obtain ⟨dp1, hu, hl⟩ := UpdateDeployment_stdLayout esc p dp m r hm1 hr1 h
    obtain ⟨dp2, hu2, hl2⟩ := ih dp1 hrest hl
    refine ⟨dp2, ?_, hl2⟩
    simp only [updateAll, hu, hu2]

/-- C19: volume well-formedness invariant. The deployment built by
`ConstructCascadingDeployment` from any Proxy record, followed by any finite
sequence of `UpdateDeployment` calls with records that carry a driver
descriptor and a resource override, is always obtained (no call fails), and
in it every volume mount of the main container and of every init container
names a declared volume, no volume name and no mount name of the main
container occurs twice, and `mysql-connect-jar` is declared at most once. -/
theorem updateAll_volumesWellFormed (esc : String → String) (p0 : Proxy) (ps : List Proxy)
    (hps : ps.all (fun p => p.Spec.MySQLDriver.isSome && p.Spec.Resources.isSome) = true) :
    ∃ dp0 dp, ConstructCascadingDeployment esc p0 = some dp0 ∧
      updateAll esc ps dp0 = some dp ∧ volumesWellFormed dp ∧
      (dp.pod.Volumes.map Volume.Name).count "mysql-connect-jar" ≤ 1 ∧
      (dp.pod.Containers.map
        (fun c => (c.VolumeMounts.map VolumeMount.Name).count "mysql-connect-jar")).all
          (fun n => decide (n ≤ 1)) = true := by
  obtain ⟨dp0, h0, hl0⟩ := ConstructCascadingDeployment_stdLayout esc p0
  obtain ⟨dp, hu, hl⟩ := updateAll_stdLayout esc ps dp0 hps hl0
  have hwf := stdLayout_volumesWellFormed dp hl
  refine ⟨dp0, dp, h0, hu, hwf, ?_, ?_⟩
  · exact List.nodup_iff_count_le_one.mp hwf.2.2.1 _
  · rw [List.all_eq_true]
    intro n hn
    obtain ⟨c, hc, rfl⟩ := List.mem_map.mp hn
    exact decide_eq_true (List.nodup_iff_count_le_one.mp (hwf.2.2.2 c hc) _)

/-- Witness for C19: `sampleProxy` is built without driver, then updated for
`overrideProxy` (driver 8.0.30), `driverProxy` (driver 8.0.28) and
`overrideProxy` again; the result is well formed. -/
theorem updateAll_volumesWellFormed_witness :
    [overrideProxy, driverProxy, overrideProxy].all
      (fun p => p.Spec.MySQLDriver.isSome && p.Spec.Resources.isSome) = true ∧
    ∃ dp0 dp, ConstructCascadingDeployment (fun v => v) sampleProxy = some dp0 ∧
      updateAll (fun v => v) [overrideProxy, driverProxy, overrideProxy] dp0 = some dp ∧
      volumesWellFormed dp ∧
      (dp.pod.Volumes.map Volume.Name).count "mysql-connect-jar" ≤ 1 ∧
      (dp.pod.Containers.map
        (fun c => (c.VolumeMounts.map VolumeMount.Name).count "mysql-connect-jar")).all
          (fun n => decide (n ≤ 1)) = true :=
  ⟨rfl, updateAll_volumesWellFormed (fun v => v) sampleProxy
    [overrideProxy, driverProxy, overrideProxy] rfl⟩

end ShardingSphere
